import Mathlib

/-!
# go-dbc: a shallow embedding of `dbc.go`

The file models the two clients of `dbc.go` (the HTTP client and the socket
client) and the image resizer, and states the properties of the
specification over that model.

Conventions of the embedding

* A Go method with a pointer receiver becomes a function that takes the
  receiver's state and returns the new state next to its results.
* The network, the random source, the image codecs and the float-to-integer
  conversions are not part of `dbc.go`; they are parameters (`Net`,
  `HTTPTransport`, `ImgLib`).
* `float64` values are kept as the expression that computes them (`F64`), so
  no rounding is ever assumed.
* Loops without a bound in the source (`for resp.Text == ""`, the shrink loop
  of `ResizeImage`) take a fuel argument; `Outcome.running` is the answer of a
  loop that is still going when the fuel is used up.
-/

namespace DBC

/-! ## Constants (dbc.go, lines 23-38) -/

def API_VERSION : String := "go-dbc/1.0.0"

def POLLS_INTERVAL : Int := 5

def HTTP_RESPONSE_TYPE : String := "application/json"

def SOCKET_HOST : String := "api.dbcapi.me"

def MAXIMUM_IMG_SIZE : Nat := 143000

def SOCKET_PORTS : List Int := [8123, 8124, 8125, 8126, 8127, 8128, 8129, 8130, 8131]

/-! ## Values -/

/-- Errors a call can return. The first group are the errors of the Go
libraries (`net`, `bufio`, `encoding/json`, `net/http`), `msg` is an error
made with `fmt.Errorf`. -/
inductive Err
  | dial
  | write
  | read
  | json
  | request
  | transport
  | msg (text : String)
  deriving DecidableEq, Repr

/-- How a Go call ends: it returns a value, returns an error, panics at run
time, or (for the unbounded loops only) is still running when the fuel of the
model is used up. -/
inductive Outcome (α : Type)
  | ok (a : α)
  | error (e : Err)
  | panic (reason : String)
  | running
  deriving DecidableEq, Repr

/-- A `float64`, kept as the expression of the source that computes it:
a decimal literal `mant * 10^exp` (a Go constant, or a JSON number read with
`strconv.ParseFloat`), the conversion `float64(n)` of an integer, and the
IEEE operations the source applies. -/
inductive F64
  | lit (mant : Int) (exp : Int)
  | ofInt (n : Int)
  | sub (a b : F64)
  | mul (a b : F64)
  | div (a b : F64)
  deriving DecidableEq, Repr

/-- The value of a float expression in exact arithmetic, before any rounding;
`none` when the expression divides by zero (IEEE gives an infinity or NaN
there, no real number). -/
def F64.real : F64 → Option ℚ
  | .lit m e => some ((m : ℚ) * (10 : ℚ) ^ e)
  | .ofInt n => some (n : ℚ)
  | .sub a b =>
    match a.real, b.real with
    | some x, some y => some (x - y)
    | _, _ => none
  | .mul a b =>
    match a.real, b.real with
    | some x, some y => some (x * y)
    | _, _ => none
  | .div a b =>
    match a.real, b.real with
    | some x, some y => if y = 0 then none else some (x / y)
    | _, _ => none

/-- A member value of a received JSON object, as far as decoding into the
scalar fields of the response structs can tell values apart: `int` is a number
literal made of an optional minus sign and digits only, `dec` a number literal
with a fraction or an exponent (`mant * 10^exp`); the contents of arrays and
objects are not kept. Number literals are taken to be in the range of
`float64`. -/
inductive JVal
  | null
  | bool (b : Bool)
  | int (n : Int)
  | dec (mant : Int) (exp : Int)
  | str (s : String)
  | array
  | object
  deriving DecidableEq, Repr

/-- A received JSON document: text that is not JSON, a JSON object with its
members in the order they appear, or any other JSON value. -/
inductive JDoc
  | malformed
  | members (kvs : List (String × JVal))
  | value (v : JVal)
  deriving DecidableEq, Repr

/-- A value put into an outgoing message by `dbc.go`: a string or an int. -/
inductive OutVal
  | str (s : String)
  | int (n : Int)
  deriving DecidableEq, Repr

/-- The `map[string]interface{}` of an outgoing message, as an association
list with one entry per key. The order of the entries has no meaning. -/
abbrev Data := List (String × OutVal)

/-- The Go assignment `data[k] = v`. -/
def setKey : Data → String → OutVal → Data
  | [], k, v => [(k, v)]
  | (k', v') :: rest, k, v =>
    if k' = k then (k, v) :: rest else (k', v') :: setKey rest k v

/-! ## Decoding of responses (`encoding/json` on the structs of dbc.go)

`json.Unmarshal` stores each member of the object into the struct field whose
name matches the key without regard to case, skips unknown keys, leaves a
field untouched on `null`, and on a value of the wrong type leaves the field
untouched, goes on, and reports an error at the end. -/

/-- Case folding of one character of a key, as far as it can reach an ASCII
letter: upper case to lower case, the Kelvin sign (U+212A) to `k` and the
long s (U+017F) to `s`. -/
def foldChar (ch : Char) : Char :=
  if ch = Char.ofNat 0x212A then 'k'
  else if ch = Char.ofNat 0x017F then 's'
  else ch.toLower

/-- The key of a JSON member, folded for the comparison with a field name
(the field names of dbc.go are ASCII). -/
def foldKey (k : String) : List Char := k.data.map foldChar

/-- Store into a `float64` field: new value, or `none` on a type error. -/
def storeFloat (old : F64) : JVal → Option F64
  | .int n => some (.lit n 0)
  | .dec m e => some (.lit m e)
  | .null => some old
  | _ => none

/-- Store into an `int` field (64 bits). -/
def storeInt (old : Int) : JVal → Option Int
  | .int n => if -(2 : Int) ^ 63 ≤ n ∧ n < (2 : Int) ^ 63 then some n else none
  | .null => some old
  | _ => none

/-- Store into a `bool` field. -/
def storeBool (old : Bool) : JVal → Option Bool
  | .bool b => some b
  | .null => some old
  | _ => none

/-- Store into a `string` field. -/
def storeString (old : String) : JVal → Option String
  | .str s => some s
  | .null => some old
  | _ => none

/-- A decoder for a target of type `τ`: the new target and whether
`json.Unmarshal` returned an error. -/
abbrev Decoder (τ : Type) := JDoc → τ → τ × Bool

/-- One member of an object decoded into a struct: the field is set, or, on
a type error, left as it is and the error remembered. -/
def storeMember {τ : Type} (store : τ → String → JVal → Option τ) (acc : τ × Bool)
    (kv : String × JVal) : τ × Bool :=
  match store acc.1 kv.1 kv.2 with
  | some t' => (t', acc.2)
  | none => (acc.1, true)

/-- Decode a document into a struct, given how one member is stored. -/
def decodeStruct {τ : Type} (store : τ → String → JVal → Option τ) : Decoder τ
  | .malformed, t => (t, true)
  | .value .null, t => (t, false)
  | .value _, t => (t, true)
  | .members kvs, t => kvs.foldl (storeMember store) (t, false)

/-- The struct `UserResp` (dbc.go, lines 163-168). -/
structure UserResp where
  Balance : F64 := .lit 0 0
  IsBanned : Bool := false
  Status : Int := 0
  Rate : F64 := .lit 0 0
  deriving DecidableEq, Repr

/-- One member stored into a `UserResp`. -/
def UserResp.store (r : UserResp) (k : String) (v : JVal) : Option UserResp :=
  if foldKey k = "balance".data then (storeFloat r.Balance v).map (fun x => { r with Balance := x })
  else if foldKey k = "is_banned".data then (storeBool r.IsBanned v).map (fun x => { r with IsBanned := x })
  else if foldKey k = "status".data then (storeInt r.Status v).map (fun x => { r with Status := x })
  else if foldKey k = "rate".data then (storeFloat r.Rate v).map (fun x => { r with Rate := x })
  else some r

/-- Decoding of a line into `UserResp`: `json.Unmarshal(msg, &resp)`. -/
def decodeUserResp : Decoder UserResp := decodeStruct UserResp.store

/-- The anonymous response struct of `Recaptcha` (dbc.go, lines 279-284). -/
structure UploadResp where
  Status : Int := 0
  CaptchaID : Int := 0
  IsCorrect : Bool := false
  Text : String := ""
  deriving DecidableEq, Repr

/-- One member stored into an `UploadResp`. -/
def UploadResp.store (r : UploadResp) (k : String) (v : JVal) : Option UploadResp :=
  if foldKey k = "status".data then (storeInt r.Status v).map (fun x => { r with Status := x })
  else if foldKey k = "captcha".data then (storeInt r.CaptchaID v).map (fun x => { r with CaptchaID := x })
  else if foldKey k = "is_correct".data then (storeBool r.IsCorrect v).map (fun x => { r with IsCorrect := x })
  else if foldKey k = "text".data then (storeString r.Text v).map (fun x => { r with Text := x })
  else some r

/-- Decoding of a line into the response struct of `Recaptcha`. -/
def decodeUploadResp : Decoder UploadResp := decodeStruct UploadResp.store

/-! ## The socket client -/

/-- The struct `SocketConfig` (dbc.go, lines 123-127). -/
structure SocketConfig where
  url : String
  port : Int
  pollInterval : Int
  deriving DecidableEq, Repr

/-- The method `SocketConfig.URL` (dbc.go, lines 133-139). -/
def SocketConfig.URL (sc : SocketConfig) : String :=
  if sc.url ≠ "" then sc.url else SOCKET_HOST

/-- The method `SocketConfig.Port` (dbc.go, lines 141-147); `rand` stands for
the random source, `rand.Intn(n)` being `rand % n`. -/
def SocketConfig.Port (sc : SocketConfig) (rand : Nat) : Int :=
  if sc.port ≠ 0 then sc.port else SOCKET_PORTS.getD (rand % SOCKET_PORTS.length) 0

/-- The method `SocketConfig.PollInterval` (dbc.go, lines 149-155). -/
def SocketConfig.PollInterval (sc : SocketConfig) : Int :=
  if sc.pollInterval ≠ 0 then sc.pollInterval else POLLS_INTERVAL

/-- The address given to `net.Dial`: host and port of `"%v:%v"`. -/
abbrev Addr := String × Int

/-- An open connection: where it was dialed and every message handed to
`Connection.Write` so far, oldest first. An entry `d` stands for the bytes
`json.Marshal(d)` followed by a newline. -/
structure Conn where
  addr : Addr
  sent : List Data
  deriving DecidableEq, Repr

/-- The struct `SocketClient` (dbc.go, lines 157-161), `Connection` being
`none` for the nil connection. `Config` is the configuration that the pointer
of the source points to (the tests never pass nil). -/
structure SocketClient where
  Username : String
  Password : String
  Config : SocketConfig
  Connection : Option Conn
  deriving DecidableEq, Repr

/-- The function `NewSocketClient` (dbc.go, lines 175-179). -/
def NewSocketClient (username password : String) (conf : SocketConfig) : SocketClient :=
  { Username := username, Password := password, Config := conf, Connection := none }

/-- A client together with what a mock transport and clock would record:
every address passed to `net.Dial` and every duration passed to
`time.Sleep`, oldest first. -/
structure World where
  client : SocketClient
  dials : List Addr
  sleeps : List Int
  deriving DecidableEq, Repr

/-- What happens to one write-then-read exchange on a connection. -/
inductive Exchange
  | writeFails
  | readFails
  | line (doc : JDoc)
  deriving DecidableEq, Repr

/-- The network and the random source: `rand n` is what the random source
gives at the dial number `n` of a client, `dial` whether `net.Dial` succeeds,
and `peer` what the peer of a connection does with the exchange whose message
is the last one of `sent`. -/
structure Net where
  rand : Nat → Nat
  dial : Addr → Bool
  peer : Addr → List Data → Exchange

/-- Every message written so far on the client's connection. -/
def World.sent (w : World) : List Data :=
  match w.client.Connection with
  | some conn => conn.sent
  | none => []

/-- Lines 188-199 of `SocketClient.Call`: on a client without a connection,
dial and, unless the command is "login", log in. The call of `c.Login()` on
line 195 is left open as the argument `login`. -/
def connect (login : World → Outcome Unit × World) (net : Net) (cmd : String) (w : World) :
    Outcome Unit × World :=
  match w.client.Connection with
  | some _ => (.ok (), w)
  | none =>
    let addr : Addr := (w.client.Config.URL, w.client.Config.Port (net.rand w.dials.length))
    let w1 : World := { w with dials := w.dials ++ [addr] }
    if net.dial addr then
      let w2 : World :=
        { w1 with client := { w1.client with Connection := some { addr := addr, sent := [] } } }
      if cmd ≠ "login" then login w2 else (.ok (), w2)
    else (.error .dial, w1)

/-- Lines 201-232 of `SocketClient.Call`: the switch on the command, the
message, the write, the read and the decoding. -/
def exchange {τ : Type} (net : Net) (cmd : String) (data : Data) (dec : Decoder τ) (target : τ)
    (w3 : World) : Outcome Unit × τ × World :=
  -- lines 201-210
  if cmd = "login" ∨ cmd = "user" ∨ cmd = "captcha" ∨ cmd = "upload" then
    let data1 : Data :=
      if cmd = "login" then
        setKey (setKey data "username" (.str w3.client.Username)) "password"
          (.str w3.client.Password)
      else data
    -- lines 212-213
    let data2 : Data := setKey (setKey data1 "cmd" (.str cmd)) "version" (.str API_VERSION)
    -- lines 215-230
    match w3.client.Connection with
    | none => (.panic "nil pointer dereference", target, w3)
    | some conn =>
      let conn1 : Conn := { conn with sent := conn.sent ++ [data2] }
      let w4 : World := { w3 with client := { w3.client with Connection := some conn1 } }
      match net.peer conn1.addr conn1.sent with
      | .writeFails => (.error .write, target, w4)
      | .readFails => (.error .read, target, w4)
      | .line doc =>
        let r := dec doc target
        if r.2 then (.error .json, r.1, w4) else (.ok (), r.1, w4)
  else (.error (.msg "Unknown command"), target, w3)

/-- The method `SocketClient.Call` (dbc.go, lines 181-233), with the call of
`c.Login()` on line 195 left open as the argument `login`. -/
def CallWith {τ : Type} (login : World → Outcome Unit × World) (net : Net) (cmd : String)
    (data : Data) (dec : Decoder τ) (target : τ) (w : World) : Outcome Unit × τ × World :=
  match connect login net cmd w with
  | (.ok (), w3) => exchange net cmd data dec target w3
  | (other, w3) => (other, target, w3)

/-- The method `SocketClient.Login` (dbc.go, lines 235-248). Its call of
`Call` has the command "login", for which `Call` does not call `Login`. -/
def Login (net : Net) (w : World) : Outcome Unit × World :=
  let r := CallWith (fun w0 => (.ok (), w0)) net "login" [] decodeUserResp {} w
  match r.1 with
  | .ok () =>
    if r.2.1.Status ≠ 0 then (.error (.msg "Unable to login"), r.2.2) else (.ok (), r.2.2)
  | other => (other, r.2.2)

/-- The method `SocketClient.Call` (dbc.go, lines 181-233). -/
def Call {τ : Type} (net : Net) (cmd : String) (data : Data) (dec : Decoder τ) (target : τ)
    (w : World) : Outcome Unit × τ × World :=
  CallWith (Login net) net cmd data dec target w

/-- The method `SocketClient.Balance` (dbc.go, lines 250-259). -/
def SocketClient.Balance (net : Net) (w : World) : Outcome F64 × World :=
  let r := Call net "user" [] decodeUserResp {} w
  match r.1 with
  | .ok () => (.ok r.2.1.Balance, r.2.2)
  | .error e => (.error e, r.2.2)
  | .panic p => (.panic p, r.2.2)
  | .running => (.running, r.2.2)

/-! ## Base64 (`base64.StdEncoding.EncodeToString`) -/

/-- The alphabet of the standard encoding. -/
def base64Alphabet : List Char :=
  "ABCDEFGHIJKLMNOPQRSTUVWXYZabcdefghijklmnopqrstuvwxyz0123456789+/".data

/-- The character of a 6-bit group. -/
def base64Char (n : Nat) : Char := base64Alphabet.getD (n % 64) 'A'

/-- Standard base64 with padding, over a list of bytes (numbers below 256):
three bytes give four characters, a last group of one or two bytes is padded
with `=`. -/
def base64 : List Nat → List Char
  | [] => []
  | [a] => [base64Char (a / 4), base64Char (a % 4 * 16), '=', '=']
  | [a, b] =>
    [base64Char (a / 4), base64Char (a % 4 * 16 + b / 16), base64Char (b % 16 * 4), '=']
  | a :: b :: c :: rest =>
    base64Char (a / 4) :: base64Char (a % 4 * 16 + b / 16) ::
      base64Char (b % 16 * 4 + c / 64) :: base64Char (c % 64) :: base64 rest

/-- The string `base64.StdEncoding.EncodeToString(imgData)`. -/
def EncodeToString (imgData : List Nat) : String := String.mk (base64 imgData)

/-! ## The solution text (`json.Unmarshal([]byte(resp.Text), &coords)`)

Decoding into a `[][]int` succeeds exactly on the JSON documents `null` and
arrays whose elements are `null` or arrays whose elements are `null` or
integer literals that fit 64 bits; everything else is a syntax error or a
type error. A `null` row is a nil slice, a `null` number leaves the zero value
of the new element. -/

/-- Tokens of the documents that decode into a `[][]int`. -/
inductive Tok
  | lbrack
  | rbrack
  | comma
  | null
  | int (n : Int)
  deriving DecidableEq, Repr

/-- The number literal being read: none, after a minus sign, after a leading
zero, or after some digits. -/
inductive NumSt
  | idle
  | minus
  | zero (neg : Bool)
  | digits (neg : Bool) (n : Nat)
  deriving DecidableEq, Repr

/-- End of a number literal: its token, nothing when no literal was being
read, failure on a lone minus sign or on a value outside 64 bits. -/
def flushNum : NumSt → Option (List Tok)
  | .idle => some []
  | .minus => none
  | .zero _ => some [.int 0]
  | .digits neg n =>
    let v : Int := if neg then -(n : Int) else (n : Int)
    if -(2 : Int) ^ 63 ≤ v ∧ v < (2 : Int) ^ 63 then some [.int v] else none

/-- JSON white space. -/
def isJSONSpace (c : Char) : Bool := c = ' ' || c = '\t' || c = '\n' || c = '\r'

/-- Cut the text into tokens; `none` when the text has anything that cannot
be part of a document that decodes into a `[][]int` (a fraction, an exponent,
a string, an object, a leading zero and so on). -/
def lexCoords : NumSt → List Char → Option (List Tok)
  | st, [] => flushNum st
  | st, c :: cs =>
    if c.isDigit then
      let d := c.toNat - 48
      match st with
      | .idle => lexCoords (if d = 0 then .zero false else .digits false d) cs
      | .minus => lexCoords (if d = 0 then .zero true else .digits true d) cs
      | .zero _ => none
      | .digits neg n => lexCoords (.digits neg (10 * n + d)) cs
    else if c = '-' then
      match st with
      | .idle => lexCoords .minus cs
      | _ => none
    else if isJSONSpace c then
      (flushNum st).bind fun ts => (lexCoords .idle cs).map fun us => ts ++ us
    else if c = '[' then
      (flushNum st).bind fun ts => (lexCoords .idle cs).map fun us => ts ++ Tok.lbrack :: us
    else if c = ']' then
      (flushNum st).bind fun ts => (lexCoords .idle cs).map fun us => ts ++ Tok.rbrack :: us
    else if c = ',' then
      (flushNum st).bind fun ts => (lexCoords .idle cs).map fun us => ts ++ Tok.comma :: us
    else if c = 'n' then
      match st, cs with
      | .idle, 'u' :: 'l' :: 'l' :: rest => (lexCoords .idle rest).map fun us => Tok.null :: us
      | _, _ => none
    else none

/-- Where the reader of the tokens stands. -/
inductive PSt
  | start
  | outerFirst
  | outerNext
  | outerRow
  | innerFirst
  | innerNext
  | innerInt
  | done
  deriving DecidableEq, Repr

/-- Read the tokens of a document into rows; `rows` are the rows closed so
far and `row` the numbers of the open row. -/
def parseCoords : PSt → List (List Int) → List Int → List Tok → Option (List (List Int))
  | .done, rows, _, [] => some rows
  | .start, rows, row, .null :: ts => parseCoords .done rows row ts
  | .start, rows, row, .lbrack :: ts => parseCoords .outerFirst rows row ts
  | .outerFirst, rows, row, .rbrack :: ts => parseCoords .done rows row ts
  | .outerFirst, rows, _, .lbrack :: ts => parseCoords .innerFirst rows [] ts
  | .outerFirst, rows, row, .null :: ts => parseCoords .outerNext (rows ++ [[]]) row ts
  | .outerRow, rows, _, .lbrack :: ts => parseCoords .innerFirst rows [] ts
  | .outerRow, rows, row, .null :: ts => parseCoords .outerNext (rows ++ [[]]) row ts
  | .outerNext, rows, row, .comma :: ts => parseCoords .outerRow rows row ts
  | .outerNext, rows, row, .rbrack :: ts => parseCoords .done rows row ts
  | .innerFirst, rows, row, .rbrack :: ts => parseCoords .outerNext (rows ++ [row]) [] ts
  | .innerFirst, rows, row, .int n :: ts => parseCoords .innerNext rows (row ++ [n]) ts
  | .innerFirst, rows, row, .null :: ts => parseCoords .innerNext rows (row ++ [0]) ts
  | .innerInt, rows, row, .int n :: ts => parseCoords .innerNext rows (row ++ [n]) ts
  | .innerInt, rows, row, .null :: ts => parseCoords .innerNext rows (row ++ [0]) ts
  | .innerNext, rows, row, .comma :: ts => parseCoords .innerInt rows row ts
  | .innerNext, rows, row, .rbrack :: ts => parseCoords .outerNext (rows ++ [row]) [] ts
  | _, _, _, _ => none

/-- The call `json.Unmarshal([]byte(text), &coords)` with `coords` a fresh
`[][]int`: the decoded rows, or `none` when it returns an error. -/
def unmarshalCoords (text : String) : Option (List (List Int)) :=
  (lexCoords .idle text.data).bind (parseCoords .start [] [])

/-! ## ResizeImage -/

/-- The image libraries (`image`, `image/png`, `github.com/nfnt/resize`) and
the float-to-integer conversions of Go, over a type `Img` of decoded images.
`decode` is `image.Decode` (`none` for its error), `maxX` and `maxY` are
`Bounds().Max.X` and `.Y`, `toUint` and `toInt` are the conversions `uint(f)`
and `int(f)`, `resize w h img` is `resize.Resize(w, h, img, resize.Lanczos3)`
and `pngEncode img` is what `png.Encode` leaves in an empty buffer. -/
structure ImgLib (Img : Type) where
  decode : List Nat → Option Img
  maxX : Img → Int
  maxY : Img → Int
  toUint : F64 → Nat
  toInt : F64 → Int
  resize : Nat → Nat → Img → Img
  pngEncode : Img → List Nat

/-- The shrink factor of attempt `i`: `1.0 - (float64(i) / 10.0)` (line 343). -/
def modifer (i : Nat) : F64 := .sub (.lit 1 0) (.div (.ofInt i) (.lit 10 0))

/-- The bytes that attempt `i` leaves in the buffer (lines 341-348). -/
def attempt {Img : Type} (lib : ImgLib Img) (orgImg : Img) (i : Nat) : List Nat :=
  lib.pngEncode (lib.resize (lib.toUint (.mul (.ofInt (lib.maxX orgImg)) (modifer i))) 0 orgImg)

/-- The loop of `ResizeImage` (lines 340-353): `i`, the buffer and the two
float variables are the loop state; the last line is the `return`. -/
def resizeLoop {Img : Type} (lib : ImgLib Img) (orgImg : Img) :
    Nat → Nat → List Nat → F64 → F64 → Outcome (List Nat × Int × Int)
  | fuel, i, imgBuffer, width, height =>
    if imgBuffer.length > MAXIMUM_IMG_SIZE ∨ imgBuffer.length = 0 then
      match fuel with
      | 0 => .running
      | fuel + 1 =>
        let width1 : F64 := .mul (.ofInt (lib.maxX orgImg)) (modifer i)
        let height1 : F64 := .mul (.ofInt (lib.maxY orgImg)) (modifer i)
        resizeLoop lib orgImg fuel (i + 1) (attempt lib orgImg i) width1 height1
    else .ok (imgBuffer, lib.toInt width, lib.toInt height)

/-- The function `ResizeImage` (dbc.go, lines 322-354). -/
def ResizeImage {Img : Type} (lib : ImgLib Img) (fuel : Nat) (img : List Nat) :
    Outcome (List Nat × Int × Int) :=
  match lib.decode img with
  | none => .error (.msg "Invalid image")
  | some orgImg => resizeLoop lib orgImg fuel 0 [] (.lit 0 0) (.lit 0 0)

/-! ## Recaptcha -/

/-- The struct `RCoord` (dbc.go, lines 170-173). -/
structure RCoord where
  X : F64
  Y : F64
  deriving DecidableEq, Repr

/-- The loop of lines 307-317: `coords[i][0]` and `coords[i][1]` divided by
the width and the height; indexing a row that is too short panics. -/
def normalize (width height : Int) : List (List Int) → Outcome (List RCoord)
  | [] => .ok []
  | (x :: y :: _) :: rest =>
    match normalize width height rest with
    | .ok rcoords =>
      .ok ({ X := .div (.ofInt x) (.ofInt width), Y := .div (.ofInt y) (.ofInt height) } :: rcoords)
    | other => other
  | _ :: _ => .panic "index out of range"

/-- A product or sum of `int64` values, wrapped to 64 bits. -/
def wrapInt64 (n : Int) : Int := (n + 2 ^ 63) % 2 ^ 64 - 2 ^ 63

/-- Line 296: the world after `time.Sleep(c.Config.PollInterval() * time.Second)`,
`time.Second` being 1000000000 nanoseconds. -/
def slept (w : World) : World :=
  { w with sleeps := w.sleeps ++ [wrapInt64 (w.client.Config.PollInterval * 1000000000)] }

/-- The polling loop of lines 295-299. The error that `Call` returns is
dropped, as in the source; `resp` is the struct that every call decodes
into. -/
def pollLoop (net : Net) : Nat → UploadResp → World → Outcome UploadResp × World
  | fuel, resp, w =>
    if resp.Text = "" then
      match fuel with
      | 0 => (.running, w)
      | fuel + 1 =>
        let r :=
          Call net "captcha" [("captcha", .int resp.CaptchaID)] decodeUploadResp resp (slept w)
        match r.1 with
        | .panic p => (.panic p, r.2.2)
        | _ => pollLoop net fuel r.2.1 r.2.2
    else (.ok resp, w)

/-- Lines 301-319 of `Recaptcha`: decode the text and normalise. -/
def solution (text : String) (width height : Int) : Outcome (List RCoord) :=
  match unmarshalCoords text with
  | none => .error (.msg "Unexpected value in field \"text\" of upload response")
  | some coords => normalize width height coords

/-- Lines 272-319 of `Recaptcha`, with the image, width and height that the
first lines of the method have settled. -/
def upload (net : Net) (pollFuel : Nat) (imgData : List Nat) (width height : Int) (w : World) :
    Outcome (List RCoord) × World :=
  let data : Data := [("captcha", .str (EncodeToString imgData)), ("type", .int 2)]
  let r := Call net "upload" data decodeUploadResp {} w
  match r.1 with
  | .ok () =>
    if !r.2.1.IsCorrect then (.error (.msg "Incorrect DBC Captcha"), r.2.2)
    else
      match pollLoop net pollFuel r.2.1 r.2.2 with
      | (.ok resp, w1) => (solution resp.Text width height, w1)
      | (.error e, w1) => (.error e, w1)
      | (.panic p, w1) => (.panic p, w1)
      | (.running, w1) => (.running, w1)
  | .error e => (.error e, r.2.2)
  | .panic p => (.panic p, r.2.2)
  | .running => (.running, r.2.2)

/-- The method `SocketClient.Recaptcha` (dbc.go, lines 261-320). -/
def SocketClient.Recaptcha {Img : Type} (net : Net) (lib : ImgLib Img) (resizeFuel pollFuel : Nat)
    (imgData : List Nat) (w : World) : Outcome (List RCoord) × World :=
  if imgData.length > MAXIMUM_IMG_SIZE then
    match ResizeImage lib resizeFuel imgData with
    | .ok (resized, width, height) => upload net pollFuel resized width height w
    | .error e => (.error e, w)
    | .panic p => (.panic p, w)
    | .running => (.running, w)
  else upload net pollFuel imgData 0 0 w

/-! ## The HTTP client -/

/-- The struct `HTTPConfig` (dbc.go, lines 50-53). -/
structure HTTPConfig where
  URL : String
  PollInterval : Int
  deriving DecidableEq, Repr

/-- The struct `HTTPClient` (dbc.go, lines 55-58). -/
structure HTTPClient where
  Username : String
  Password : String
  Config : HTTPConfig
  deriving DecidableEq, Repr

/-- The function `NewHTTPClient` (dbc.go, lines 60-62). -/
def NewHTTPClient (username password : String) (conf : HTTPConfig) : HTTPClient :=
  { Username := username, Password := password, Config := conf }

/-- A `url.Values`: keys with their lists of values. -/
abbrev Values := List (String × List String)

/-- What `dbc.go` puts into an `http.Request`: the method, the URL string
given to `http.NewRequest` and the headers set on it. The request has no
body (`nil`). -/
structure Request where
  method : String
  url : String
  header : List (String × String)
  deriving DecidableEq, Repr

/-- What `dbc.go` reads of an `http.Response`: the status code and the first
JSON value of the body. -/
structure Response where
  StatusCode : Int
  body : JDoc
  deriving DecidableEq, Repr

/-- The package `net/http`: whether `http.NewRequest` accepts the method and
URL, and what `client.Do` answers (`none` for its error). -/
structure HTTPTransport where
  newRequestOk : String → String → Bool
  roundTrip : Request → Option Response

/-- The call `strings.Trim(cmd, "/")`: leading and trailing slashes removed. -/
def trimSlashes (cmd : String) : String :=
  String.mk (((cmd.data.dropWhile (fun ch => ch = '/')).reverse.dropWhile
    (fun ch => ch = '/')).reverse)

/-- The index expression `m[k]` on a decoded `map[string]interface{}`: the
value of the last member with that key, `none` when the key is absent. -/
def lookupKey (m : List (String × JVal)) (k : String) : Option JVal :=
  (m.reverse.find? (fun kv => kv.1 = k)).map (fun kv => kv.2)

/-- The type assertion `v.(float64)` on a decoded member, `v` being `none`
for the nil of an absent key. -/
def assertFloat : Option JVal → Option F64
  | some (.int n) => some (.lit n 0)
  | some (.dec m e) => some (.lit m e)
  | _ => none

/-- The method `HTTPClient.Call` (dbc.go, lines 64-100). Next to the result
it gives the requests passed to `client.Do`. The argument `payload` is not
used by the body, as in the source. -/
def HTTPClient.Call (t : HTTPTransport) (c : HTTPClient) (cmd : String) (_payload : Values) :
    Outcome (List (String × JVal)) × List Request :=
  let url := c.Config.URL ++ "/" ++ trimSlashes cmd
  if t.newRequestOk "GET" url then
    let req : Request :=
      { method := "GET", url := url,
        header := [("Accept", HTTP_RESPONSE_TYPE), ("User-Agent", API_VERSION)] }
    match t.roundTrip req with
    | none => (.error .transport, [req])
    | some resp =>
      if resp.StatusCode = 403 then
        (.error (.msg "Access denied, please check your credentials and/or balance"), [req])
      else if resp.StatusCode = 400 then
        (.error (.msg "CAPTCHA was rejected by the service, check if it's a valid image"), [req])
      else if resp.StatusCode = 413 then
        (.error (.msg "CAPTCHA was rejected by the service, check if it's a valid image"), [req])
      else if resp.StatusCode = 503 then
        (.error (.msg "CAPTCHA was rejected due to service overload, try again later"), [req])
      else
        match resp.body with
        | .members kvs => (.ok kvs, [req])
        | .value .null => (.ok [], [req])
        | _ => (.error (.msg "Invalid API Response"), [req])
  else (.error .request, [])

/-- The method `HTTPClient.UserURL` (dbc.go, lines 102-107). -/
def HTTPClient.UserURL (c : HTTPClient) : Values :=
  [("username", [c.Username]), ("password", [c.Password])]

/-- The method `HTTPClient.Balance` (dbc.go, lines 109-121). -/
def HTTPClient.Balance (t : HTTPTransport) (c : HTTPClient) : Outcome F64 × List Request :=
  let r := c.Call t "user" c.UserURL
  match r.1 with
  | .ok json =>
    match assertFloat (lookupKey json "balance") with
    | some balance => (.ok balance, r.2)
    | none => (.error (.msg "Balance is not a float"), r.2)
  | .error e => (.error e, r.2)
  | .panic p => (.panic p, r.2)
  | .running => (.running, r.2)

/-! ## Fixtures: the servers of the test files -/

/-- The constants `Username` and `Password` of the test files. -/
def Username : String := "tpanum"

def Password : String := "godforgivemypasswordsins"

/-- The value of the key `cmd` of a message. -/
def cmdOf (d : Data) : Option OutVal :=
  (d.find? (fun kv => kv.1 = "cmd")).map (fun kv => kv.2)

/-- The constant `LOGIN_RESP` of dbc_socket_test.go. -/
def LOGIN_RESP : JDoc :=
  .members [("is_banned", .bool false), ("status", .int 0), ("rate", .dec 139 (-3)),
    ("balance", .dec 5341051 (-3)), ("user", .int 275723)]

/-- The constant `UPLOAD_RESP` of dbc_socket_test.go. -/
def UPLOAD_RESP : JDoc :=
  .members [("status", .int 0), ("captcha", .int 3758452), ("is_correct", .bool true),
    ("text", .str "")]

/-- The constant `CAPTCHA_RESP` of dbc_socket_test.go, with the text as an
argument. -/
def captchaResp (text : String) : JDoc :=
  .members [("status", .int 0), ("captcha", .int 3758452), ("is_correct", .bool true),
    ("text", .str text)]

/-- The constant `CAPTCHA_RESP` of dbc_socket_test.go. -/
def CAPTCHA_RESP : JDoc := captchaResp "[[101,115],[116,236],[157,236],[143,288],[91,293]]"

/-- The server of `setup` in dbc_socket_test.go: it answers by the command of
the message it has just read; `login`, `upload` and `captcha` are its three
answers (the answer to "user" is the one to "login"). A command it does not
know gets no answer, which the client sees as a failed read. -/
def serverOf (login upload captcha : JDoc) (sent : List Data) : Exchange :=
  match sent.getLast? with
  | none => .readFails
  | some d =>
    if cmdOf d = some (.str "login") then .line login
    else if cmdOf d = some (.str "user") then .line login
    else if cmdOf d = some (.str "upload") then .line upload
    else if cmdOf d = some (.str "captcha") then .line captcha
    else .readFails

/-- The network of dbc_socket_test.go. -/
def testNet : Net :=
  { rand := fun _ => 0, dial := fun _ => true, peer := fun _ => serverOf LOGIN_RESP UPLOAD_RESP CAPTCHA_RESP }

/-- The value `SocketConf` of dbc_socket_test.go. -/
def SocketConf : SocketConfig := { url := "127.0.0.1", port := 8081, pollInterval := 1 }

/-- A new client of the socket test, nothing dialed and no sleep yet. -/
def testWorld : World :=
  { client := NewSocketClient Username Password SocketConf, dials := [], sleeps := [] }

/-- The message that `Call("login", nil, ...)` writes for a client. -/
def loginMsg (c : SocketClient) : Data :=
  [("username", .str c.Username), ("password", .str c.Password), ("cmd", .str "login"),
    ("version", .str API_VERSION)]

/-- The message that `Call("user", nil, ...)` writes. -/
def userMsg : Data := [("cmd", .str "user"), ("version", .str API_VERSION)]

/-- The address a client dials. -/
def dialAddr (net : Net) (w : World) : Addr :=
  (w.client.Config.URL, w.client.Config.Port (net.rand w.dials.length))

/-- The world right after a successful dial (lines 189-192). -/
def dialed (net : Net) (w : World) : World :=
  { w with
    dials := w.dials ++ [dialAddr net w]
    client := { w.client with Connection := some { addr := dialAddr net w, sent := [] } } }

/-- The test client with its connection already open and logged in. -/
def connectedWorld : World := (Login testNet (dialed testNet testWorld)).2

/-- The world after a successful dial and the write of the login message. -/
def loggedIn (net : Net) (w : World) : World :=
  { w with
    dials := w.dials ++ [dialAddr net w]
    client :=
      { w.client with
        Connection := some { addr := dialAddr net w, sent := [loginMsg w.client] } } }

/-- How the login exchange on a new connection ends (lines 215-230 and
243-247). -/
def loginOutcome (net : Net) (w : World) : Outcome Unit :=
  match net.peer (dialAddr net w) [loginMsg w.client] with
  | .writeFails => .error .write
  | .readFails => .error .read
  | .line doc =>
    if (decodeUserResp doc {}).2 then .error .json
    else if (decodeUserResp doc {}).1.Status ≠ 0 then .error (.msg "Unable to login")
    else .ok ()

/-- A login answer with status 1. -/
def LOGIN_REFUSED : JDoc :=
  .members [("is_banned", .bool false), ("status", .int 1), ("rate", .dec 139 (-3)),
    ("balance", .dec 5341051 (-3)), ("user", .int 275723)]

/-- The test network with a server that answers "login" and "user" with
status 1. -/
def refusingNet : Net :=
  { rand := fun _ => 0, dial := fun _ => true,
    peer := fun _ => serverOf LOGIN_REFUSED UPLOAD_RESP CAPTCHA_RESP }

/-- A buffer ends the loop of `ResizeImage`: it is not empty and has at most
`MAXIMUM_IMG_SIZE` bytes (the negation of the loop condition, line 340). -/
def fits (imgBuffer : List Nat) : Prop :=
  0 < imgBuffer.length ∧ imgBuffer.length ≤ MAXIMUM_IMG_SIZE

/-- The width and height that `ResizeImage` returns when attempt `i` is the
last one (lines 344, 345 and 353). -/
def dimsAt {Img : Type} (lib : ImgLib Img) (orgImg : Img) (i : Nat) : Int × Int :=
  (lib.toInt (.mul (.ofInt (lib.maxX orgImg)) (modifer i)),
    lib.toInt (.mul (.ofInt (lib.maxY orgImg)) (modifer i)))

/-- A message respects the limit of the service: a string under the key
"captcha" has at most 192000 characters. -/
def captchaFits (d : Data) : Prop :=
  ∀ s : String, ("captcha", OutVal.str s) ∈ d → s.length ≤ 192000

/-- Every message written so far on the client's connection respects the
limit of the service. -/
def sentFits (w : World) : Prop := ∀ d ∈ w.sent, captchaFits d

/-- Truncation of `n * (1.0 - i / 10.0)` in exact arithmetic, for the float
expressions that `ResizeImage` builds; used by the toy library below. -/
def exactTrunc : F64 → Int
  | .mul (.ofInt n) (.sub (.lit 1 0) (.div (.ofInt i) (.lit 10 0))) => n * (10 - i) / 10
  | _ => 0

/-- A toy image library for the examples. A decoded image is its width and
height; every file decodes to the `w` by `h` image; resizing to width `rw`
keeps the aspect ratio and, for `rw = 0`, gives the image back (what
nfnt/resize does for a zero width and height); the PNG of an image of width
`x` and height `y` has `size x y` bytes. -/
def toyLib (w h : Int) (size : Int → Int → Nat) : ImgLib (Int × Int) :=
  { decode := fun _ => some (w, h)
    maxX := fun img => img.1
    maxY := fun img => img.2
    toUint := fun f => (exactTrunc f).toNat
    toInt := exactTrunc
    resize := fun rw _ img => if rw = 0 then img else ((rw : Int), img.2 * rw / img.1)
    pngEncode := fun img => List.replicate (size img.1 img.2) 0 }

/-- A 4000 by 3000 image of noise: the PNG of every resized version has more
than 143000 bytes (four bytes a pixel and a floor of 143001 bytes). -/
def noisyLib : ImgLib (Int × Int) :=
  toyLib 4000 3000 (fun x y => 143001 + 4 * (x * y).toNat)

/-- A 1000 by 500 image whose PNG has one byte a pixel. -/
def plainLib : ImgLib (Int × Int) :=
  toyLib 1000 500 (fun x y => (x * y).toNat)

/-- A 200 by 300 image whose PNG has 64 bytes. -/
def smallLib : ImgLib (Int × Int) :=
  toyLib 200 300 (fun _ _ => 64)

/-- An image file of 143001 bytes. -/
def bigFile : List Nat := List.replicate 143001 0

/-- An image file of four bytes. -/
def smallFile : List Nat := [137, 80, 78, 71]

/-- The test network with the solution text `[[101,115],[116,236]]` of the
specification. -/
def pairNet : Net :=
  { rand := fun _ => 0, dial := fun _ => true,
    peer := fun _ => serverOf LOGIN_RESP UPLOAD_RESP (captchaResp "[[101,115],[116,236]]") }

/-- The test network with the solution text `[[1]]`. -/
def shortRowNet : Net :=
  { rand := fun _ => 0, dial := fun _ => true,
    peer := fun _ => serverOf LOGIN_RESP UPLOAD_RESP (captchaResp "[[1]]") }

/-- The number of "captcha" messages among the messages of a connection. -/
def captchaCount (sent : List Data) : Nat :=
  (sent.filter (fun d => decide (cmdOf d = some (.str "captcha")))).length

/-- The network of `pairNet` on which the write of the first "captcha" query
fails. -/
def flakyNet : Net :=
  { rand := fun _ => 0, dial := fun _ => true,
    peer := fun _ sent =>
      match sent.getLast? with
      | none => .readFails
      | some d =>
        if cmdOf d = some (.str "captcha") ∧ captchaCount sent ≤ 1 then .writeFails
        else serverOf LOGIN_RESP UPLOAD_RESP (captchaResp "[[101,115],[116,236]]") sent }

/-- The network of `pairNet` on which the write of every "captcha" query
fails. -/
def deadNet : Net :=
  { rand := fun _ => 0, dial := fun _ => true,
    peer := fun _ sent =>
      match sent.getLast? with
      | none => .readFails
      | some d =>
        if cmdOf d = some (.str "captcha") then .writeFails
        else serverOf LOGIN_RESP UPLOAD_RESP (captchaResp "[[101,115],[116,236]]") sent }

/-- The points of a list of pairs, divided by a width and a height. -/
def pointsOf (width height : Int) (pairs : List (Int × Int)) : List RCoord :=
  pairs.map fun p =>
    { X := .div (.ofInt p.1) (.ofInt width), Y := .div (.ofInt p.2) (.ofInt height) }

/-- The tokens of the rows after the first one and of the end of a JSON array
of pairs: `,[x,y]` for every pair, then `]`. -/
def tailTokens : List (Int × Int) → List Tok
  | [] => [.rbrack]
  | p :: rest =>
    .comma :: .lbrack :: .int p.1 :: .comma :: .int p.2 :: .rbrack :: tailTokens rest

/-- The tokens of the JSON array of the pairs `[x, y]`: `[[x1,y1],...,[xn,yn]]`,
white space left aside. -/
def pairTokens : List (Int × Int) → List Tok
  | [] => [.lbrack, .rbrack]
  | p :: rest =>
    .lbrack :: .lbrack :: .int p.1 :: .comma :: .int p.2 :: .rbrack :: tailTokens rest

/-- The rows `[x, y]` of a list of pairs. -/
def rowsOf (pairs : List (Int × Int)) : List (List Int) :=
  pairs.map fun p => [p.1, p.2]

/-- The test network with a server that answers "user" with the document
`user`. -/
def userNet (user : JDoc) : Net :=
  { rand := fun _ => 0, dial := fun _ => true,
    peer := fun _ sent =>
      match sent.getLast? with
      | none => .readFails
      | some d =>
        if cmdOf d = some (.str "user") then .line user
        else serverOf LOGIN_RESP UPLOAD_RESP CAPTCHA_RESP sent }

/-- The body that the server of dbc_http_test.go writes for "/user". -/
def HTTP_USER_BODY : JDoc :=
  .members [("user", .int 264), ("rate", .dec 2 (-2)), ("balance", .dec 264525 (-2))]

/-- The answer `LOGIN_RESP` of the socket test with `null` for the balance. -/
def NULL_BALANCE_RESP : JDoc :=
  .members [("is_banned", .bool false), ("status", .int 0), ("rate", .dec 139 (-3)),
    ("balance", .null), ("user", .int 275723)]

/-- The answer `LOGIN_RESP` of the socket test with a string for the
balance. -/
def STRING_BALANCE_RESP : JDoc :=
  .members [("is_banned", .bool false), ("status", .int 0), ("rate", .dec 139 (-3)),
    ("balance", .str "5341.051"), ("user", .int 275723)]

/-- The body of the HTTP test with `null` for the balance. -/
def HTTP_NULL_BODY : JDoc :=
  .members [("user", .int 264), ("rate", .dec 2 (-2)), ("balance", .null)]

/-- The body of the HTTP test with a string for the balance. -/
def HTTP_STRING_BODY : JDoc :=
  .members [("user", .int 264), ("rate", .dec 2 (-2)), ("balance", .str "2645.25")]

/-- The base URL of a test server. -/
def testURL : String := "http://127.0.0.1:8080"

/-- The server of dbc_http_test.go, with the status code and the body of its
answer to "/user" as arguments; any other request gets an empty body. -/
def httpServer (status : Int) (body : JDoc) : HTTPTransport :=
  { newRequestOk := fun _ _ => true
    roundTrip := fun req =>
      if req.url = testURL ++ "/user" then some { StatusCode := status, body := body }
      else some { StatusCode := 200, body := .malformed } }

/-- The value `HTTPConf` of dbc_http_test.go. -/
def HTTPConf : HTTPConfig := { URL := testURL, PollInterval := 5 }

/-- The request of `HTTPClient.Balance`. -/
def userRequest (c : HTTPClient) : Request :=
  { method := "GET", url := c.Config.URL ++ "/" ++ "user",
    header := [("Accept", HTTP_RESPONSE_TYPE), ("User-Agent", API_VERSION)] }

/-! ## Call and Login on a new connection -/

/-- The login exchange on a connection that has just been dialed. -/
theorem Login_dialed (net : Net) (w : World) :
    Login net (dialed net w) = (loginOutcome net w, loggedIn net w) := by
  unfold Login CallWith connect exchange loginOutcome
  simp only [dialed, loggedIn, loginMsg, setKey, List.nil_append]
  cases hp : net.peer (dialAddr net w)
      [[("username", OutVal.str w.client.Username), ("password", OutVal.str w.client.Password),
        ("cmd", OutVal.str "login"), ("version", OutVal.str API_VERSION)]] with
  | writeFails => simp [hp]
  | readFails => simp [hp]
  | line doc =>
    simp only [hp]
    by_cases hb : (decodeUserResp doc {}).2 = true
    · simp [hp, hb]
    · by_cases hs : (decodeUserResp doc {}).1.Status = 0 <;> simp [hp, hb, hs]

/-- The method `Login` on a client without a connection. -/
theorem Login_fresh (net : Net) (w : World) (hconn : w.client.Connection = none) :
    Login net w =
      if net.dial (dialAddr net w) then (loginOutcome net w, loggedIn net w)
      else (.error .dial, { w with dials := w.dials ++ [dialAddr net w] }) := by
  by_cases hd : net.dial (dialAddr net w) = true
  · have h := Login_dialed net w
    unfold Login CallWith connect exchange at h ⊢
    simp only [hconn, hd, if_true]
    simp only [dialed, dialAddr] at h hd ⊢
    simp only [hd, if_true]
    simpa using h
  · unfold Login CallWith connect exchange
    simp only [dialAddr] at hd
    simp [hconn, hd, dialAddr]

/-- A call with a command other than "login" on a client without a
connection, up to the end of the implicit login. -/
theorem Call_fresh {τ : Type} (net : Net) (cmd : String) (data : Data) (dec : Decoder τ)
    (target : τ) (w : World) (hconn : w.client.Connection = none) (h1 : cmd ≠ "login") :
    Call net cmd data dec target w =
      if net.dial (dialAddr net w) then
        match loginOutcome net w with
        | .ok () => Call net cmd data dec target (loggedIn net w)
        | other => (other, target, loggedIn net w)
      else (.error .dial, target, { w with dials := w.dials ++ [dialAddr net w] }) := by
  by_cases hd : net.dial (dialAddr net w) = true
  · have h := Login_dialed net w
    simp only [hd, if_true]
    unfold Call CallWith connect exchange
    simp only [dialed, dialAddr] at h hd
    simp only [hconn, hd, if_true, ne_eq, h1, not_false_eq_true, h, dialAddr]
    cases loginOutcome net w <;> simp [loggedIn, dialAddr]
  · simp only [dialAddr] at hd
    unfold Call CallWith connect exchange
    simp [hconn, hd, dialAddr]

/-- A call with an unknown command on a client with a connection. -/
theorem Call_unknown_connected {τ : Type} (net : Net) (cmd : String) (data : Data)
    (dec : Decoder τ) (target : τ) (w : World) (conn : Conn)
    (hconn : w.client.Connection = some conn)
    (h1 : cmd ≠ "login") (h2 : cmd ≠ "user") (h3 : cmd ≠ "captcha") (h4 : cmd ≠ "upload") :
    Call net cmd data dec target w = (.error (.msg "Unknown command"), target, w) := by
  unfold Call CallWith connect exchange
  simp [hconn, h1, h2, h3, h4]

/-- The messages on the connection after `Balance` on a client with a
connection: the message of "user" is appended, whatever the peer does. -/
theorem Balance_connected_sent (net : Net) (w : World) (conn : Conn)
    (hconn : w.client.Connection = some conn) :
    (SocketClient.Balance net w).2.sent = conn.sent ++ [userMsg] := by
  unfold SocketClient.Balance Call CallWith connect exchange
  simp only [hconn, setKey, userMsg]
  cases hp : net.peer conn.addr (conn.sent ++ [[("cmd", OutVal.str "user"),
      ("version", OutVal.str API_VERSION)]]) with
  | writeFails => simp [hp, World.sent]
  | readFails => simp [hp, World.sent]
  | line doc =>
    by_cases hb : (decodeUserResp doc {}).2 = true <;> simp [hp, hb, World.sent]

/-! ## C1: unknown commands -/

/-- C1 (amended): for every command name other than "login", "user", "captcha"
and "upload", `Call` on a client that already has a connection returns the
"Unknown command" error and leaves the client, the dials and the connection
untouched (nothing is dialed, nothing is written). On a client without a
connection `Call` first dials; when the dial fails it returns the dial error,
and when the dial succeeds it writes the login message on the new connection
and returns the error of the login if the login fails, the "Unknown command"
error otherwise. -/
theorem C1_unknown_command {τ : Type} (net : Net) (cmd : String) (data : Data)
    (dec : Decoder τ) (target : τ) (w : World)
    (h1 : cmd ≠ "login") (h2 : cmd ≠ "user") (h3 : cmd ≠ "captcha") (h4 : cmd ≠ "upload") :
    Call net cmd data dec target w =
      match w.client.Connection with
      | some _ => (.error (.msg "Unknown command"), target, w)
      | none =>
        if net.dial (dialAddr net w) then
          ((match loginOutcome net w with
            | .ok () => .error (.msg "Unknown command")
            | other => other), target, loggedIn net w)
        else (.error .dial, target, { w with dials := w.dials ++ [dialAddr net w] }) := by
  cases hconn : w.client.Connection with
  | some conn => exact Call_unknown_connected net cmd data dec target w conn hconn h1 h2 h3 h4
  | none =>
    rw [Call_fresh net cmd data dec target w hconn h1]
    by_cases hd : net.dial (dialAddr net w) = true
    · simp only [hd, if_true]
      cases hl : loginOutcome net w with
      | ok u =>
        exact Call_unknown_connected net cmd data dec target (loggedIn net w) _ rfl h1 h2 h3 h4
      | error e => rfl
      | panic p => rfl
      | running => rfl
    · simp [hd]

/-- C1, witness: the command "foo" on the connected client of the socket
test, and on a new client of the socket test. -/
theorem C1_unknown_command_witness :
    ("foo" ≠ "login" ∧ "foo" ≠ "user" ∧ "foo" ≠ "captcha" ∧ "foo" ≠ "upload") ∧
    Call testNet "foo" [] decodeUserResp {} connectedWorld =
      (.error (.msg "Unknown command"), {}, connectedWorld) ∧
    Call testNet "foo" [] decodeUserResp {} testWorld =
      (.error (.msg "Unknown command"), {}, loggedIn testNet testWorld) :=
  ⟨by decide,
    (C1_unknown_command testNet "foo" [] decodeUserResp {} connectedWorld
      (by decide) (by decide) (by decide) (by decide)).trans (by decide),
    (C1_unknown_command testNet "foo" [] decodeUserResp {} testWorld
      (by decide) (by decide) (by decide) (by decide)).trans (by decide)⟩

/-- C1, counterexample: on a new client of the socket test the unknown
command "foo" makes `Call` dial 127.0.0.1:8081 and write the login message
before it returns "Unknown command", so a mock transport records a dial and a
message. -/
theorem C1_counterexample :
    (Call testNet "foo" [] decodeUserResp {} testWorld).1 = .error (.msg "Unknown command") ∧
    (Call testNet "foo" [] decodeUserResp {} testWorld).2.2.dials = [("127.0.0.1", 8081)] ∧
    (Call testNet "foo" [] decodeUserResp {} testWorld).2.2.sent =
      [[("username", .str "tpanum"), ("password", .str "godforgivemypasswordsins"),
        ("cmd", .str "login"), ("version", .str "go-dbc/1.0.0")]] ∧
    (Call testNet "foo" [] decodeUserResp {} testWorld).2.2.sent ≠ [] := by
  decide

/-! ## C4: a refused login -/

/-- C4 (amended): on a client without a connection, when the dial succeeds
and the server answers the login message with a status other than 0, `Login`,
`Balance`, `Recaptcha` (once the image is settled) and `Call` with a command
other than "login" return an error, and the failing call writes nothing after
the login message. The connection stays set on the client: a later call
(here `Balance`) finds it, skips the dial and the login, and writes its
command on that same connection. -/
theorem C4_login_refused (net : Net) (w : World) (doc : JDoc)
    (hconn : w.client.Connection = none) (hd : net.dial (dialAddr net w) = true)
    (hp : net.peer (dialAddr net w) [loginMsg w.client] = .line doc)
    (hs : (decodeUserResp doc {}).1.Status ≠ 0) :
    let e : Err := if (decodeUserResp doc {}).2 then .json else .msg "Unable to login"
    Login net w = (.error e, loggedIn net w) ∧
    SocketClient.Balance net w = (.error e, loggedIn net w) ∧
    (∀ (τ : Type) (cmd : String) (data : Data) (dec : Decoder τ) (target : τ),
      cmd ≠ "login" → Call net cmd data dec target w = (.error e, target, loggedIn net w)) ∧
    (∀ (Img : Type) (lib : ImgLib Img) (resizeFuel pollFuel : Nat) (imgData : List Nat),
      (imgData.length ≤ MAXIMUM_IMG_SIZE ∨ ∃ res, ResizeImage lib resizeFuel imgData = .ok res) →
      SocketClient.Recaptcha net lib resizeFuel pollFuel imgData w = (.error e, loggedIn net w)) ∧
    (loggedIn net w).sent = [loginMsg w.client] ∧
    (SocketClient.Balance net (loggedIn net w)).2.sent = [loginMsg w.client, userMsg] := by
  intro e
  have hl : loginOutcome net w = .error e := by
    unfold loginOutcome
    simp only [hp]
    by_cases hb : (decodeUserResp doc {}).2 = true
    · simp [hb, e]
    · simp [hb, hs, e]
  have hcall : ∀ (τ : Type) (cmd : String) (data : Data) (dec : Decoder τ) (target : τ),
      cmd ≠ "login" → Call net cmd data dec target w = (.error e, target, loggedIn net w) := by
    intro τ cmd data dec target h1
    rw [Call_fresh net cmd data dec target w hconn h1]
    simp [hd, hl]
  have hup : ∀ (pollFuel : Nat) (imgData : List Nat) (width height : Int),
      upload net pollFuel imgData width height w = (.error e, loggedIn net w) := by
    intro pollFuel imgData width height
    unfold upload
    simp [hcall]
  refine ⟨?_, ?_, hcall, ?_, rfl, ?_⟩
  · rw [Login_fresh net w hconn]
    simp [hd, hl]
  · unfold SocketClient.Balance
    simp [hcall]
  · intro Img lib resizeFuel pollFuel imgData himg
    unfold SocketClient.Recaptcha
    by_cases hlen : imgData.length > MAXIMUM_IMG_SIZE
    · rcases himg with hle | ⟨res, hres⟩
      · omega
      · simp only [hlen, if_true, hres]
        exact hup _ _ _ _
    · simp only [hlen, if_false]
      exact hup _ _ _ _
  · have h := Balance_connected_sent net (loggedIn net w)
      { addr := dialAddr net w, sent := [loginMsg w.client] } rfl
    simpa using h

/-- C4, witness: a new client of the socket test against a server that
answers the login with status 1. -/
theorem C4_login_refused_witness :
    (testWorld.client.Connection = none ∧
      refusingNet.dial (dialAddr refusingNet testWorld) = true ∧
      refusingNet.peer (dialAddr refusingNet testWorld) [loginMsg testWorld.client] =
        .line LOGIN_REFUSED ∧
      (decodeUserResp LOGIN_REFUSED {}).1.Status ≠ 0) ∧
    Login refusingNet testWorld =
      (.error (.msg "Unable to login"), loggedIn refusingNet testWorld) ∧
    SocketClient.Balance refusingNet testWorld =
      (.error (.msg "Unable to login"), loggedIn refusingNet testWorld) :=
  ⟨by decide,
    (C4_login_refused refusingNet testWorld LOGIN_REFUSED (by decide) (by decide) (by decide)
      (by decide)).1.trans (by decide),
    (C4_login_refused refusingNet testWorld LOGIN_REFUSED (by decide) (by decide) (by decide)
      (by decide)).2.1.trans (by decide)⟩

/-- C4, counterexample: after `Balance` has failed on the refused login, a
second `Balance` on the same client writes the "user" message on the same
connection (and here even returns a balance). -/
theorem C4_counterexample :
    (SocketClient.Balance refusingNet testWorld).1 = .error (.msg "Unable to login") ∧
    (SocketClient.Balance refusingNet testWorld).2.sent =
      [[("username", .str "tpanum"), ("password", .str "godforgivemypasswordsins"),
        ("cmd", .str "login"), ("version", .str "go-dbc/1.0.0")]] ∧
    (SocketClient.Balance refusingNet (SocketClient.Balance refusingNet testWorld).2).2.sent =
      [[("username", .str "tpanum"), ("password", .str "godforgivemypasswordsins"),
        ("cmd", .str "login"), ("version", .str "go-dbc/1.0.0")],
       [("cmd", .str "user"), ("version", .str "go-dbc/1.0.0")]] ∧
    (SocketClient.Balance refusingNet (SocketClient.Balance refusingNet testWorld).2).1 =
      .ok (.lit 5341051 (-3)) := by
  decide

/-! ## The loop of ResizeImage -/

/-- A buffer that fits ends the loop. -/
theorem resizeLoop_fits {Img : Type} (lib : ImgLib Img) (orgImg : Img) (fuel i : Nat)
    (buf : List Nat) (width height : F64) (hf : fits buf) :
    resizeLoop lib orgImg fuel i buf width height =
      .ok (buf, lib.toInt width, lib.toInt height) := by
  have hc : ¬ (buf.length > MAXIMUM_IMG_SIZE ∨ buf.length = 0) := by
    unfold fits at hf
    omega
  unfold resizeLoop
  simp only [hc, if_false]

/-- A buffer that does not fit makes the loop run attempt `i`. -/
theorem resizeLoop_step {Img : Type} (lib : ImgLib Img) (orgImg : Img) (fuel i : Nat)
    (buf : List Nat) (width height : F64) (hf : ¬ fits buf) :
    resizeLoop lib orgImg (fuel + 1) i buf width height =
      resizeLoop lib orgImg fuel (i + 1) (attempt lib orgImg i)
        (.mul (.ofInt (lib.maxX orgImg)) (modifer i))
        (.mul (.ofInt (lib.maxY orgImg)) (modifer i)) := by
  have hc : buf.length > MAXIMUM_IMG_SIZE ∨ buf.length = 0 := by
    unfold fits at hf
    omega
  rw [resizeLoop]
  simp only [hc, if_true]

/-- The loop returns at the first attempt that fits. -/
theorem resizeLoop_first {Img : Type} (lib : ImgLib Img) (orgImg : Img) :
    ∀ (k fuel i : Nat) (buf : List Nat) (width height : F64), ¬ fits buf →
      (∀ j, j < k → ¬ fits (attempt lib orgImg (i + j))) →
      fits (attempt lib orgImg (i + k)) → k < fuel →
      resizeLoop lib orgImg fuel i buf width height =
        .ok (attempt lib orgImg (i + k), dimsAt lib orgImg (i + k)) := by
  intro k
  induction k with
  | zero =>
    intro fuel i buf width height hb _ hk hfuel
    obtain ⟨f, rfl⟩ : ∃ f, fuel = f + 1 := ⟨fuel - 1, by omega⟩
    rw [Nat.add_zero] at hk ⊢
    rw [resizeLoop_step lib orgImg f i buf width height hb]
    rw [resizeLoop_fits lib orgImg f (i + 1) _ _ _ hk]
    rfl
  | succ k ih =>
    intro fuel i buf width height hb hall hk hfuel
    obtain ⟨f, rfl⟩ : ∃ f, fuel = f + 1 := ⟨fuel - 1, by omega⟩
    rw [resizeLoop_step lib orgImg f i buf width height hb]
    have h0 : ¬ fits (attempt lib orgImg i) := hall 0 (by omega)
    have hrest : ∀ j, j < k → ¬ fits (attempt lib orgImg (i + 1 + j)) := by
      intro j hj
      have := hall (j + 1) (by omega)
      rwa [show i + (j + 1) = i + 1 + j by omega] at this
    have hk' : fits (attempt lib orgImg (i + 1 + k)) := by
      rwa [show i + (k + 1) = i + 1 + k by omega] at hk
    rw [ih f (i + 1) _ _ _ h0 hrest hk' (by omega)]
    rw [show i + (k + 1) = i + 1 + k by omega]

/-- While no attempt fits the loop goes on. -/
theorem resizeLoop_running {Img : Type} (lib : ImgLib Img) (orgImg : Img) :
    ∀ (fuel i : Nat) (buf : List Nat) (width height : F64), ¬ fits buf →
      (∀ j, j < fuel → ¬ fits (attempt lib orgImg (i + j))) →
      resizeLoop lib orgImg fuel i buf width height = .running := by
  intro fuel
  induction fuel with
  | zero =>
    intro i buf width height hb _
    have hc : buf.length > MAXIMUM_IMG_SIZE ∨ buf.length = 0 := by
      unfold fits at hb
      omega
    rw [resizeLoop]
    simp only [hc, if_true]
  | succ f ih =>
    intro i buf width height hb hall
    rw [resizeLoop_step lib orgImg f i buf width height hb]
    apply ih
    · exact hall 0 (by omega)
    · intro j hj
      have := hall (j + 1) (by omega)
      rwa [show i + (j + 1) = i + 1 + j by omega] at this

/-- The loop has no error exit. -/
theorem resizeLoop_no_error {Img : Type} (lib : ImgLib Img) (orgImg : Img) :
    ∀ (fuel i : Nat) (buf : List Nat) (width height : F64) (e : Err),
      resizeLoop lib orgImg fuel i buf width height ≠ .error e := by
  intro fuel
  induction fuel with
  | zero =>
    intro i buf width height e
    rw [resizeLoop]
    split <;> simp
  | succ f ih =>
    intro i buf width height e
    by_cases hb : fits buf
    · rw [resizeLoop_fits lib orgImg _ i buf width height hb]
      simp
    · rw [resizeLoop_step lib orgImg f i buf width height hb]
      exact ih _ _ _ _ e

/-- What the loop returns fits. -/
theorem resizeLoop_ok_fits {Img : Type} (lib : ImgLib Img) (orgImg : Img) :
    ∀ (fuel i : Nat) (buf : List Nat) (width height : F64) (res : List Nat × Int × Int),
      resizeLoop lib orgImg fuel i buf width height = .ok res → fits res.1 := by
  intro fuel
  induction fuel with
  | zero =>
    intro i buf width height res h
    by_cases hb : fits buf
    · rw [resizeLoop_fits lib orgImg _ i buf width height hb] at h
      cases h
      exact hb
    · rw [resizeLoop_running lib orgImg 0 i buf width height hb (by intro j hj; omega)] at h
      cases h
  | succ f ih =>
    intro i buf width height res h
    by_cases hb : fits buf
    · rw [resizeLoop_fits lib orgImg _ i buf width height hb] at h
      cases h
      exact hb
    · rw [resizeLoop_step lib orgImg f i buf width height hb] at h
      exact ih _ _ _ _ res h

/-- The empty buffer does not fit. -/
theorem not_fits_nil : ¬ fits [] := by
  unfold fits
  simp

/-- The exact value of the shrink factor of attempt `i`. -/
theorem modifer_real (i : Nat) : (modifer i).real = some ((10 - (i : ℚ)) / 10) := by
  simp only [modifer, F64.real]
  norm_num
  ring

/-! ## C10: the shrink loop has no bound -/

/-- C10 (amended): for every decodable input image, `ResizeImage` returns at
the first attempt `k = 0, 1, 2, ...` whose PNG is not empty and has at most
143000 bytes, with the bytes of that attempt and the width and height
computed with the factor `1.0 - k/10`; while no attempt fits, the loop goes
on, also past attempt 9: there is no bound on the attempts and no error
exit, and the factor of attempt 10 is zero and the factor of every later
attempt is negative. -/
theorem C10_resize_unbounded {Img : Type} (lib : ImgLib Img) (img : List Nat) (orgImg : Img)
    (hdec : lib.decode img = some orgImg) :
    (∀ k fuel : Nat, (∀ j, j < k → ¬ fits (attempt lib orgImg j)) →
      fits (attempt lib orgImg k) → k < fuel →
      ResizeImage lib fuel img = .ok (attempt lib orgImg k, dimsAt lib orgImg k)) ∧
    (∀ fuel : Nat, (∀ j, j < fuel → ¬ fits (attempt lib orgImg j)) →
      ResizeImage lib fuel img = .running) ∧
    (∀ (fuel : Nat) (e : Err), ResizeImage lib fuel img ≠ .error e) ∧
    (modifer 10).real = some 0 ∧
    (∀ i : Nat, 10 < i → ∃ q : ℚ, (modifer i).real = some q ∧ q < 0) := by
  refine ⟨?_, ?_, ?_, ?_, ?_⟩
  · intro k fuel hall hk hfuel
    unfold ResizeImage
    simp only [hdec]
    have h := resizeLoop_first lib orgImg k fuel 0 [] (.lit 0 0) (.lit 0 0) not_fits_nil
      (by simpa using hall) (by simpa using hk) hfuel
    simpa using h
  · intro fuel hall
    unfold ResizeImage
    simp only [hdec]
    exact resizeLoop_running lib orgImg fuel 0 [] _ _ not_fits_nil (by simpa using hall)
  · intro fuel e
    unfold ResizeImage
    simp only [hdec]
    exact resizeLoop_no_error lib orgImg fuel 0 [] _ _ e
  · rw [modifer_real]
    norm_num
  · intro i hi
    refine ⟨(10 - (i : ℚ)) / 10, modifer_real i, ?_⟩
    have : (10 : ℚ) < i := by exact_mod_cast hi
    linarith

/-- C10, witness: the 1000 by 500 image of `plainLib` (one byte a pixel):
attempts 0 to 4 are too big and attempt 5, 500 by 250, fits. -/
theorem C10_resize_unbounded_witness :
    plainLib.decode smallFile = some (1000, 500) ∧
    ResizeImage plainLib 6 smallFile = .ok (List.replicate 125000 0, 500, 250) :=
  ⟨rfl,
    ((C10_resize_unbounded plainLib smallFile (1000, 500) rfl).1 5 6
      (by
        intro j hj
        have hj' : j = 0 ∨ j = 1 ∨ j = 2 ∨ j = 3 ∨ j = 4 := by omega
        rcases hj' with h | h | h | h | h <;> subst h <;>
          simp only [fits, attempt, plainLib, toyLib, modifer, exactTrunc, MAXIMUM_IMG_SIZE,
            List.length_replicate] <;> decide)
      (by
        simp only [fits, attempt, plainLib, toyLib, modifer, exactTrunc, MAXIMUM_IMG_SIZE,
          List.length_replicate]
        decide)
      (by omega)).trans
      (by
        simp only [attempt, dimsAt, plainLib, toyLib, modifer, exactTrunc]
        rfl)⟩

/-- Every attempt on the noise image is too big. -/
theorem noisy_never_fits (i : Nat) : ¬ fits (attempt noisyLib (4000, 3000) i) := by
  simp only [fits, attempt, noisyLib, toyLib, MAXIMUM_IMG_SIZE]
  split <;> simp only [List.length_replicate] <;> omega

/-- C10, counterexample: on the noise image no attempt has at most 143000
bytes; after the ten attempts with a positive factor `ResizeImage` has not
failed with an error but is in its loop, as it is after 1000 attempts, and it
never returns an error. -/
theorem C10_counterexample :
    noisyLib.decode smallFile = some (4000, 3000) ∧
    ResizeImage noisyLib 10 smallFile = .running ∧
    ResizeImage noisyLib 1000 smallFile = .running ∧
    ¬ ∃ (fuel : Nat) (e : Err), ResizeImage noisyLib fuel smallFile = .error e := by
  refine ⟨rfl, ?_, ?_, ?_⟩
  · exact resizeLoop_running noisyLib (4000, 3000) 10 0 [] _ _ not_fits_nil
      (fun j _ => noisy_never_fits (0 + j))
  · exact resizeLoop_running noisyLib (4000, 3000) 1000 0 [] _ _ not_fits_nil
      (fun j _ => noisy_never_fits (0 + j))
  · rintro ⟨fuel, e, h⟩
    exact resizeLoop_no_error noisyLib (4000, 3000) fuel 0 [] _ _ e h

/-! ## The size of the uploaded image -/

/-- The length of the standard base64 encoding of `n` bytes is
`4 * ceil(n / 3)`. -/
theorem base64_length (l : List Nat) : (base64 l).length = 4 * ((l.length + 2) / 3) := by
  induction l using base64.induct with
  | case1 => simp [base64]
  | case2 a => simp [base64]
  | case3 a b => simp [base64]
  | case4 a b c rest ih =>
    simp only [base64, List.length_cons, ih]
    omega

/-- The length of the string that `EncodeToString` returns. -/
theorem EncodeToString_length (l : List Nat) :
    (EncodeToString l).length = 4 * ((l.length + 2) / 3) := by
  simp only [EncodeToString, String.length, base64_length]

/-- The encoding of at most 143000 bytes has at most 192000 characters. -/
theorem EncodeToString_le (l : List Nat) (h : l.length ≤ MAXIMUM_IMG_SIZE) :
    (EncodeToString l).length ≤ 192000 := by
  rw [EncodeToString_length]
  simp only [MAXIMUM_IMG_SIZE] at h
  omega

/-- An entry of a map after an assignment is the new entry or an old one. -/
theorem setKey_mem (d : Data) (k : String) (v : OutVal) (p : String × OutVal)
    (hp : p ∈ setKey d k v) : p = (k, v) ∨ p ∈ d := by
  induction d with
  | nil =>
    simp only [setKey, List.mem_singleton] at hp
    exact Or.inl hp
  | cons hd tl ih =>
    rcases hd with ⟨k', v'⟩
    simp only [setKey] at hp
    by_cases hk : k' = k
    · simp only [hk, if_true, List.mem_cons] at hp
      rcases hp with h | h
      · exact Or.inl h
      · exact Or.inr (List.mem_cons_of_mem _ h)
    · simp only [hk, if_false, List.mem_cons] at hp
      rcases hp with h | h
      · exact Or.inr (by rw [h]; exact List.mem_cons_self _ _)
      · rcases ih h with h' | h'
        · exact Or.inl h'
        · exact Or.inr (List.mem_cons_of_mem _ h')

/-- An assignment to a key other than "captcha" keeps the limit. -/
theorem captchaFits_setKey (d : Data) (k : String) (v : OutVal) (hd : captchaFits d)
    (hk : k ≠ "captcha") : captchaFits (setKey d k v) := by
  intro s hs
  rcases setKey_mem d k v _ hs with h | h
  · exact absurd (congrArg Prod.fst h).symm hk
  · exact hd s h

/-- The message that `Call` writes keeps the limit when the data does. -/
theorem captchaFits_message (data : Data) (cmd user pass : String) (hd : captchaFits data) :
    captchaFits
      (setKey (setKey
        (if cmd = "login" then setKey (setKey data "username" (.str user)) "password" (.str pass)
          else data) "cmd" (.str cmd)) "version" (.str API_VERSION)) := by
  apply captchaFits_setKey _ _ _ _ (by decide)
  apply captchaFits_setKey _ _ _ _ (by decide)
  split
  · apply captchaFits_setKey _ _ _ _ (by decide)
    exact captchaFits_setKey _ _ _ hd (by decide)
  · exact hd

/-- The limit on the messages of a connection is kept by lines 201-232 of
`Call` when the data of the call keeps it. -/
theorem exchange_sentFits {τ : Type} (net : Net) (cmd : String) (data : Data) (dec : Decoder τ)
    (target : τ) (w3 : World) (hw : sentFits w3) (hd : captchaFits data) :
    sentFits (exchange net cmd data dec target w3).2.2 := by
  unfold exchange
  split
  · cases hconn : w3.client.Connection with
    | none => simp only; exact hw
    | some conn =>
      have hnew : ∀ d ∈ conn.sent ++ [setKey (setKey
          (if cmd = "login" then
            setKey (setKey data "username" (.str w3.client.Username)) "password"
              (.str w3.client.Password)
           else data) "cmd" (.str cmd)) "version" (.str API_VERSION)], captchaFits d := by
        intro d hmem
        rcases List.mem_append.1 hmem with h | h
        · apply hw d
          simp only [World.sent, hconn]
          exact h
        · rw [List.mem_singleton] at h
          rw [h]
          exact captchaFits_message data cmd _ _ hd
      simp only
      split
      · simpa [sentFits, World.sent] using hnew
      · simpa [sentFits, World.sent] using hnew
      · split <;> simpa [sentFits, World.sent] using hnew
  · exact hw

/-- The limit is kept by lines 188-199 of `Call` when the login keeps it. -/
theorem connect_sentFits (login : World → Outcome Unit × World) (net : Net) (cmd : String)
    (w : World) (hlogin : ∀ w0, sentFits w0 → sentFits (login w0).2) (hw : sentFits w) :
    sentFits (connect login net cmd w).2 := by
  unfold connect
  cases hconn : w.client.Connection with
  | some conn => exact hw
  | none =>
    simp only
    split
    · split
      · apply hlogin
        simp [sentFits, World.sent]
      · simp [sentFits, World.sent]
    · simp only [sentFits, World.sent, hconn] at hw ⊢
      exact hw

/-- The limit is kept by `Call` when the login it runs and its data keep
it. -/
theorem CallWith_sentFits {τ : Type} (login : World → Outcome Unit × World) (net : Net)
    (cmd : String) (data : Data) (dec : Decoder τ) (target : τ) (w : World)
    (hlogin : ∀ w0, sentFits w0 → sentFits (login w0).2)
    (hw : sentFits w) (hd : captchaFits data) :
    sentFits (CallWith login net cmd data dec target w).2.2 := by
  have hc := connect_sentFits login net cmd w hlogin hw
  unfold CallWith
  rcases hcon : connect login net cmd w with ⟨o, w3⟩
  rw [hcon] at hc
  cases o with
  | ok u => exact exchange_sentFits net cmd data dec target w3 hc hd
  | error e => exact hc
  | panic p => exact hc
  | running => exact hc

/-- The empty map keeps the limit. -/
theorem captchaFits_nil : captchaFits [] := by
  intro s hs
  cases hs

/-- The limit is kept by `Login`. -/
theorem Login_sentFits (net : Net) (w : World) (hw : sentFits w) : sentFits (Login net w).2 := by
  have h := CallWith_sentFits (fun w0 => (Outcome.ok (), w0)) net "login" [] decodeUserResp {} w
    (fun _ h0 => h0) hw captchaFits_nil
  unfold Login
  dsimp only
  generalize CallWith (fun w0 => (Outcome.ok (), w0)) net "login" [] decodeUserResp {} w = r
    at h ⊢
  rcases r with ⟨o, t, w1⟩
  cases o with
  | ok u =>
    simp only
    split <;> exact h
  | error e => exact h
  | panic p => exact h
  | running => exact h

/-- The limit is kept by `Call` when its data keeps it. -/
theorem Call_sentFits {τ : Type} (net : Net) (cmd : String) (data : Data) (dec : Decoder τ)
    (target : τ) (w : World) (hw : sentFits w) (hd : captchaFits data) :
    sentFits (Call net cmd data dec target w).2.2 :=
  CallWith_sentFits (Login net) net cmd data dec target w (Login_sentFits net) hw hd

/-- The limit is kept by the polling loop: the "captcha" of its messages is
an int. -/
theorem pollLoop_sentFits (net : Net) :
    ∀ (fuel : Nat) (resp : UploadResp) (w : World), sentFits w →
      sentFits (pollLoop net fuel resp w).2 := by
  intro fuel
  induction fuel with
  | zero =>
    intro resp w hw
    unfold pollLoop
    split <;> exact hw
  | succ f ih =>
    intro resp w hw
    unfold pollLoop
    split
    · have hw1 : sentFits (slept w) := hw
      have hd : captchaFits [("captcha", OutVal.int resp.CaptchaID)] := by
        intro s hs
        simp at hs
      have h := Call_sentFits net "captcha" [("captcha", .int resp.CaptchaID)] decodeUploadResp
        resp _ hw1 hd
      simp only
      split
      · exact h
      · exact ih _ _ h
    · exact hw

/-- The limit is kept by lines 272-319 of `Recaptcha` when the image has at
most `MAXIMUM_IMG_SIZE` bytes. -/
theorem upload_sentFits (net : Net) (pollFuel : Nat) (imgData : List Nat) (width height : Int)
    (w : World) (hw : sentFits w) (himg : imgData.length ≤ MAXIMUM_IMG_SIZE) :
    sentFits (upload net pollFuel imgData width height w).2 := by
  have hd : captchaFits [("captcha", OutVal.str (EncodeToString imgData)), ("type", .int 2)] := by
    intro s hs
    simp only [List.mem_cons, Prod.mk.injEq, OutVal.str.injEq, List.mem_singleton] at hs
    rcases hs with ⟨_, h⟩ | ⟨h, _⟩ | h
    · rw [h]
      exact EncodeToString_le imgData himg
    · exact absurd h (by decide)
    · cases h
  have h := Call_sentFits net "upload" _ decodeUploadResp {} w hw hd
  unfold upload
  dsimp only
  generalize Call net "upload" [("captcha", OutVal.str (EncodeToString imgData)),
    ("type", OutVal.int 2)] decodeUploadResp {} w = r at h ⊢
  rcases r with ⟨o, resp, w1⟩
  cases o with
  | ok u =>
    simp only
    split
    · exact h
    · have hp := pollLoop_sentFits net pollFuel resp w1 h
      generalize pollLoop net pollFuel resp w1 = q at hp ⊢
      rcases q with ⟨o2, w2⟩
      cases o2 <;> exact hp
  | error e => exact h
  | panic p => exact h
  | running => exact h

/-- What `ResizeImage` returns fits. -/
theorem ResizeImage_ok_fits {Img : Type} (lib : ImgLib Img) (fuel : Nat) (img : List Nat)
    (res : List Nat × Int × Int) (h : ResizeImage lib fuel img = .ok res) : fits res.1 := by
  unfold ResizeImage at h
  cases hdec : lib.decode img with
  | none =>
    rw [hdec] at h
    cases h
  | some orgImg =>
    rw [hdec] at h
    exact resizeLoop_ok_fits lib orgImg fuel 0 [] _ _ res h

/-- The limit is kept by `Recaptcha`. -/
theorem Recaptcha_sentFits {Img : Type} (net : Net) (lib : ImgLib Img) (resizeFuel pollFuel : Nat)
    (imgData : List Nat) (w : World) (hw : sentFits w) :
    sentFits (SocketClient.Recaptcha net lib resizeFuel pollFuel imgData w).2 := by
  unfold SocketClient.Recaptcha
  by_cases hlen : imgData.length > MAXIMUM_IMG_SIZE
  · simp only [hlen, if_true]
    cases hres : ResizeImage lib resizeFuel imgData with
    | ok res =>
      rcases res with ⟨resized, width, height⟩
      have hf := ResizeImage_ok_fits lib resizeFuel imgData _ hres
      exact upload_sentFits net pollFuel resized width height w hw hf.2
    | error e => exact hw
    | panic p => exact hw
    | running => exact hw
  · simp only [hlen, if_false]
    exact upload_sentFits net pollFuel imgData 0 0 w hw (by omega)

/-! ## C5: the size of the upload -/

/-- C5: after `Recaptcha`, every message on the connection that carries a
string under "captcha" carries at most 192000 characters, provided that held
before the call; the image that `Recaptcha` uploads is the input when it has
at most 143000 bytes and the output of `ResizeImage` otherwise; the output of
`ResizeImage` is not empty and has at most 143000 bytes; and the base64
encoding of `n <= 143000` bytes has `4 * ceil(n / 3) <= 192000`
characters. -/
theorem C5_upload_size {Img : Type} (net : Net) (lib : ImgLib Img) (resizeFuel pollFuel : Nat)
    (imgData : List Nat) (w : World) (hw : sentFits w) :
    sentFits (SocketClient.Recaptcha net lib resizeFuel pollFuel imgData w).2 ∧
    (imgData.length ≤ MAXIMUM_IMG_SIZE →
      SocketClient.Recaptcha net lib resizeFuel pollFuel imgData w =
        upload net pollFuel imgData 0 0 w) ∧
    (∀ res : List Nat × Int × Int, MAXIMUM_IMG_SIZE < imgData.length →
      ResizeImage lib resizeFuel imgData = .ok res →
      SocketClient.Recaptcha net lib resizeFuel pollFuel imgData w =
        upload net pollFuel res.1 res.2.1 res.2.2 w) ∧
    (∀ res : List Nat × Int × Int, ResizeImage lib resizeFuel imgData = .ok res →
      0 < res.1.length ∧ res.1.length ≤ 143000) ∧
    (∀ bytes : List Nat, bytes.length ≤ 143000 →
      (EncodeToString bytes).length = 4 * ((bytes.length + 2) / 3) ∧
      (EncodeToString bytes).length ≤ 192000) := by
  refine ⟨Recaptcha_sentFits net lib resizeFuel pollFuel imgData w hw, ?_, ?_, ?_, ?_⟩
  · intro h
    unfold SocketClient.Recaptcha
    have : ¬ imgData.length > MAXIMUM_IMG_SIZE := by omega
    simp only [this, if_false]
  · intro res hbig hres
    unfold SocketClient.Recaptcha
    simp only [gt_iff_lt, hbig, if_true, hres]
  · intro res hres
    exact ResizeImage_ok_fits lib resizeFuel imgData res hres
  · intro bytes hb
    exact ⟨EncodeToString_length bytes, EncodeToString_le bytes hb⟩

/-- A new client has written nothing. -/
theorem sentFits_testWorld : sentFits testWorld := by
  intro d hd
  simp [World.sent, testWorld, NewSocketClient] at hd

/-- C5, witness: the four-byte file on a new client of the socket test. -/
theorem C5_upload_size_witness :
    sentFits testWorld ∧
    sentFits (SocketClient.Recaptcha testNet smallLib 1 2 smallFile testWorld).2 :=
  ⟨sentFits_testWorld,
    (C5_upload_size testNet smallLib 1 2 smallFile testWorld sentFits_testWorld).1⟩

/-! ## C3: the points of a resized image -/

/-- The loop of lines 307-317 on rows of two numbers. -/
theorem normalize_rowsOf (width height : Int) (pairs : List (Int × Int)) :
    normalize width height (rowsOf pairs) = .ok (pointsOf width height pairs) := by
  induction pairs with
  | nil => rfl
  | cons p rest ih =>
    simp only [rowsOf, List.map_cons, normalize, pointsOf] at ih ⊢
    rw [ih]

/-- The reader of the tokens after a row, on the rest of an array of pairs. -/
theorem parseCoords_tailTokens (pairs : List (Int × Int)) :
    ∀ (rows : List (List Int)) (row : List Int),
      parseCoords .outerNext rows row (tailTokens pairs) = some (rows ++ rowsOf pairs) := by
  induction pairs with
  | nil =>
    intro rows row
    simp [tailTokens, parseCoords, rowsOf]
  | cons p rest ih =>
    intro rows row
    simp only [tailTokens, parseCoords, List.nil_append]
    rw [ih]
    simp [rowsOf]

/-- The tokens of an array of pairs are read into the rows of the pairs. -/
theorem parseCoords_pairTokens (pairs : List (Int × Int)) :
    parseCoords .start [] [] (pairTokens pairs) = some (rowsOf pairs) := by
  cases pairs with
  | nil => simp [pairTokens, parseCoords, rowsOf]
  | cons p rest =>
    simp only [pairTokens, parseCoords, List.nil_append]
    rw [parseCoords_tailTokens]
    simp [rowsOf]

/-- A text whose tokens are those of an array of pairs decodes into the rows
of the pairs. -/
theorem unmarshalCoords_pairs (text : String) (pairs : List (Int × Int))
    (h : lexCoords .idle text.data = some (pairTokens pairs)) :
    unmarshalCoords text = some (rowsOf pairs) := by
  unfold unmarshalCoords
  rw [h]
  exact parseCoords_pairTokens pairs

/-- C3: when `Recaptcha` has resized the image to width `W` and height `H`
(both positive), the upload is accepted, and the polling ends with a text
that is the JSON array of the `n` integer pairs `[x_i, y_i]` (its tokens are
`[[x_1,y_1],...,[x_n,y_n]]`), `Recaptcha` returns the `n` points
`(float64(x_i) / float64(W), float64(y_i) / float64(H))` in the order of the
text, the exact values being `x_i / W` and `y_i / H`. -/
theorem C3_resized_points {Img : Type} (net : Net) (lib : ImgLib Img) (resizeFuel pollFuel : Nat)
    (imgData : List Nat) (w : World) (resized : List Nat) (W H : Int) (r0 : UploadResp)
    (w0 : World) (resp : UploadResp) (w1 : World) (pairs : List (Int × Int))
    (hbig : MAXIMUM_IMG_SIZE < imgData.length)
    (hres : ResizeImage lib resizeFuel imgData = .ok (resized, W, H))
    (hW : 0 < W) (hH : 0 < H)
    (hup : Call net "upload" [("captcha", .str (EncodeToString resized)), ("type", .int 2)]
      decodeUploadResp {} w = (.ok (), r0, w0))
    (hok : r0.IsCorrect = true)
    (hpoll : pollLoop net pollFuel r0 w0 = (.ok resp, w1))
    (htext : lexCoords .idle resp.Text.data = some (pairTokens pairs)) :
    SocketClient.Recaptcha net lib resizeFuel pollFuel imgData w =
      (.ok (pointsOf W H pairs), w1) ∧
    (pointsOf W H pairs).length = pairs.length ∧
    (∀ p ∈ pairs,
      (F64.div (.ofInt p.1) (.ofInt W)).real = some ((p.1 : ℚ) / (W : ℚ)) ∧
      (F64.div (.ofInt p.2) (.ofInt H)).real = some ((p.2 : ℚ) / (H : ℚ))) := by
  refine ⟨?_, ?_, ?_⟩
  · unfold SocketClient.Recaptcha
    simp only [gt_iff_lt, hbig, if_true, hres]
    unfold upload
    dsimp only
    rw [hup]
    simp only [hok, Bool.not_true, Bool.false_eq_true, if_false, hpoll]
    unfold solution
    rw [unmarshalCoords_pairs resp.Text pairs htext]
    exact congrArg (fun o => (o, w1)) (normalize_rowsOf W H pairs)
  · simp [pointsOf]
  · intro p _
    have hW' : (W : ℚ) ≠ 0 := by exact_mod_cast hW.ne'
    have hH' : (H : ℚ) ≠ 0 := by exact_mod_cast hH.ne'
    simp [F64.real, hW', hH']

/-- C3, witness: the text `[[101,115],[116,236]]` of the specification and an image
of 143001 bytes that `ResizeImage` resizes to 200 by 300: the two points are
(101/200, 115/300) and (116/200, 236/300). -/
theorem C3_resized_points_witness :
    (MAXIMUM_IMG_SIZE < bigFile.length ∧
      ResizeImage smallLib 1 bigFile = .ok (List.replicate 64 0, 200, 300) ∧
      (0 : Int) < 200 ∧ (0 : Int) < 300 ∧
      lexCoords .idle "[[101,115],[116,236]]".data =
        some (pairTokens [(101, 115), (116, 236)])) ∧
    (SocketClient.Recaptcha pairNet smallLib 1 2 bigFile testWorld).1 =
      .ok [{ X := .div (.ofInt 101) (.ofInt 200), Y := .div (.ofInt 115) (.ofInt 300) },
           { X := .div (.ofInt 116) (.ofInt 200), Y := .div (.ofInt 236) (.ofInt 300) }] :=
  have hbig : MAXIMUM_IMG_SIZE < bigFile.length := by
    simp only [bigFile, MAXIMUM_IMG_SIZE, List.length_replicate]
    decide
  ⟨⟨hbig, rfl, by decide, by decide, by decide⟩,
    (congrArg Prod.fst
      (C3_resized_points pairNet smallLib 1 2 bigFile testWorld (List.replicate 64 0) 200 300
        (Call pairNet "upload"
          [("captcha", .str (EncodeToString (List.replicate 64 0))), ("type", .int 2)]
          decodeUploadResp {} testWorld).2.1
        (Call pairNet "upload"
          [("captcha", .str (EncodeToString (List.replicate 64 0))), ("type", .int 2)]
          decodeUploadResp {} testWorld).2.2
        { Status := 0, CaptchaID := 3758452, IsCorrect := true, Text := "[[101,115],[116,236]]" }
        (pollLoop pairNet 2
          (Call pairNet "upload"
            [("captcha", .str (EncodeToString (List.replicate 64 0))), ("type", .int 2)]
            decodeUploadResp {} testWorld).2.1
          (Call pairNet "upload"
            [("captcha", .str (EncodeToString (List.replicate 64 0))), ("type", .int 2)]
            decodeUploadResp {} testWorld).2.2).2
        [(101, 115), (116, 236)]
        hbig rfl (by decide) (by decide)
        (Prod.ext (by decide) rfl) (by decide)
        (Prod.ext (by decide) rfl) (by decide)).1).trans (by decide)⟩

/-! ## C2: an image that is not resized -/

/-- C2, the code at a failing input: the four-byte file is below the limit,
so `Recaptcha` uploads the base64 of exactly its bytes ("iVBORw=="), but the
width and height stay 0; with the solution text `[[101,115],[116,236]]` the
points it returns are 101/0, 115/0, 116/0 and 236/0 (no real number), not the
quotients by the 200 by 300 of the image. -/
theorem C2_unresized_divides_by_zero :
    smallFile.length ≤ MAXIMUM_IMG_SIZE ∧
    smallLib.decode smallFile = some (200, 300) ∧
    (SocketClient.Recaptcha pairNet smallLib 1 2 smallFile testWorld).2.sent =
      [[("username", .str "tpanum"), ("password", .str "godforgivemypasswordsins"),
        ("cmd", .str "login"), ("version", .str "go-dbc/1.0.0")],
       [("captcha", .str "iVBORw=="), ("type", .int 2), ("cmd", .str "upload"),
        ("version", .str "go-dbc/1.0.0")],
       [("captcha", .int 3758452), ("cmd", .str "captcha"), ("version", .str "go-dbc/1.0.0")]] ∧
    (SocketClient.Recaptcha pairNet smallLib 1 2 smallFile testWorld).1 =
      .ok [{ X := .div (.ofInt 101) (.ofInt 0), Y := .div (.ofInt 115) (.ofInt 0) },
           { X := .div (.ofInt 116) (.ofInt 0), Y := .div (.ofInt 236) (.ofInt 0) }] ∧
    (F64.div (.ofInt 101) (.ofInt 0)).real = none ∧
    (F64.div (.ofInt 101) (.ofInt 200)).real = some ((101 : ℚ) / 200) := by
  refine ⟨by decide, rfl, by decide, by decide, ?_, ?_⟩
  · simp [F64.real]
  · simp [F64.real]

/-! ## C6: a solution text with a short row -/

/-- C6, the code at failing inputs: the texts "abc" and "[[1.5,2]]" give the
malformed-solution error, but "[[1]]" and "[[]]" decode into a `[][]int`
without error and the indexing of lines 309-310 panics; a whole run of
`Recaptcha` against a server whose solution text is "[[1]]" ends in that
panic. -/
theorem C6_short_row_panics :
    solution "abc" 200 300 =
      .error (.msg "Unexpected value in field \"text\" of upload response") ∧
    solution "[[1.5,2]]" 200 300 =
      .error (.msg "Unexpected value in field \"text\" of upload response") ∧
    unmarshalCoords "[[1]]" = some [[1]] ∧
    solution "[[1]]" 200 300 = .panic "index out of range" ∧
    unmarshalCoords "[[]]" = some [[]] ∧
    solution "[[]]" 200 300 = .panic "index out of range" ∧
    (SocketClient.Recaptcha shortRowNet smallLib 1 2 smallFile testWorld).1 =
      .panic "index out of range" := by
  decide

/-! ## C7: an error in the polling loop -/

/-- C7, the code at a failing input: on `flakyNet` the first "captcha" query
fails on the write, yet `Recaptcha` does not return that error: it sleeps a
second time, writes the query again on the same connection and returns the
points of the second answer. On `deadNet`, where every query fails, it is
still in the loop after three queries and three sleeps. -/
theorem C7_poll_error_dropped :
    (Call flakyNet "captcha" [("captcha", .int 3758452)] decodeUploadResp
      { Status := 0, CaptchaID := 3758452, IsCorrect := true, Text := "" }
      (slept (upload flakyNet 0 smallFile 0 0 testWorld).2)).1 = .error .write ∧
    (SocketClient.Recaptcha flakyNet smallLib 1 3 smallFile testWorld).1 =
      .ok [{ X := .div (.ofInt 101) (.ofInt 0), Y := .div (.ofInt 115) (.ofInt 0) },
           { X := .div (.ofInt 116) (.ofInt 0), Y := .div (.ofInt 236) (.ofInt 0) }] ∧
    (SocketClient.Recaptcha flakyNet smallLib 1 3 smallFile testWorld).2.sleeps =
      [1000000000, 1000000000] ∧
    captchaCount (SocketClient.Recaptcha flakyNet smallLib 1 3 smallFile testWorld).2.sent = 2 ∧
    (SocketClient.Recaptcha deadNet smallLib 1 3 smallFile testWorld).1 = .running ∧
    (SocketClient.Recaptcha deadNet smallLib 1 3 smallFile testWorld).2.sleeps =
      [1000000000, 1000000000, 1000000000] ∧
    captchaCount (SocketClient.Recaptcha deadNet smallLib 1 3 smallFile testWorld).2.sent = 3 := by
  decide

/-! ## C9: the request of HTTPClient.Balance -/

/-- The command "user" has no slash to trim. -/
theorem trimSlashes_user : trimSlashes "user" = "user" := by decide

/-- The requests that `HTTPClient.Call` issues. -/
theorem HTTPClient_Call_requests (t : HTTPTransport) (c : HTTPClient) (cmd : String)
    (payload : Values) :
    (HTTPClient.Call t c cmd payload).2 =
      (if t.newRequestOk "GET" (c.Config.URL ++ "/" ++ trimSlashes cmd) then
        [{ method := "GET", url := c.Config.URL ++ "/" ++ trimSlashes cmd,
           header := [("Accept", HTTP_RESPONSE_TYPE), ("User-Agent", API_VERSION)] }]
       else []) := by
  unfold HTTPClient.Call
  dsimp only
  by_cases hreq : t.newRequestOk "GET" (c.Config.URL ++ "/" ++ trimSlashes cmd) = true
  · simp only [hreq, if_true]
    cases t.roundTrip _ with
    | none => rfl
    | some resp =>
      dsimp only
      split_ifs <;> try rfl
      rcases resp.body with _ | kvs | v
      · rfl
      · rfl
      · cases v <;> rfl
  · simp only [hreq]
    rfl

/-- The requests of `HTTPClient.Balance` are those of its `Call`. -/
theorem HTTPClient_Balance_requests (t : HTTPTransport) (c : HTTPClient) :
    (HTTPClient.Balance t c).2 = (HTTPClient.Call t c "user" c.UserURL).2 := by
  unfold HTTPClient.Balance
  dsimp only
  generalize HTTPClient.Call t c "user" c.UserURL = r
  rcases r with ⟨o, reqs⟩
  cases o with
  | ok json =>
    dsimp only
    split <;> rfl
  | error e => rfl
  | panic q => rfl
  | running => rfl

/-- C9, the code on every input: the only request that `HTTPClient.Balance`
issues is a GET of `<Config.URL>/user` with the headers `Accept` and
`User-Agent`; the URL is the base URL followed by "/user", with no query
string added, and neither the username nor the password of the client appear
in the request (the `url.Values` of `UserURL` are passed to `Call`, which
never reads them). -/
theorem C9_request_without_credentials (t : HTTPTransport) (u p : String) (conf : HTTPConfig) :
    (HTTPClient.Balance t (NewHTTPClient u p conf)).2 =
      (if t.newRequestOk "GET" (conf.URL ++ "/" ++ "user") then
        [{ method := "GET", url := conf.URL ++ "/" ++ "user",
           header := [("Accept", "application/json"), ("User-Agent", "go-dbc/1.0.0")] }]
       else []) ∧
    (∀ (cmd : String) (payload : Values),
      HTTPClient.Call t (NewHTTPClient u p conf) cmd payload =
        HTTPClient.Call t (NewHTTPClient u p conf) cmd []) ∧
    (HTTPClient.Balance { newRequestOk := fun _ _ => true, roundTrip := fun _ => none }
      (NewHTTPClient "tpanum" "godforgivemypasswordsins"
        { URL := "http://127.0.0.1:8080", PollInterval := 5 })).2 =
      [{ method := "GET", url := "http://127.0.0.1:8080/user",
         header := [("Accept", "application/json"), ("User-Agent", "go-dbc/1.0.0")] }] := by
  refine ⟨?_, ?_, by decide⟩
  · rw [HTTPClient_Balance_requests, HTTPClient_Call_requests, trimSlashes_user]
    rfl
  · intro cmd payload
    rfl

/-! ## C8: Balance on a balance that is not a number -/

/-- Once a type error is remembered it stays. -/
theorem storeMember_flag (kvs : List (String × JVal)) :
    ∀ acc : UserResp × Bool, acc.2 = true →
      (kvs.foldl (storeMember UserResp.store) acc).2 = true := by
  induction kvs with
  | nil => exact fun _ h => h
  | cons kv rest ih =>
    intro acc h
    rw [List.foldl_cons]
    apply ih
    unfold storeMember
    split
    · exact h
    · rfl

/-- A member under another key leaves the field `Balance` as it is. -/
theorem store_other_key (r r' : UserResp) (k : String) (v : JVal)
    (hk : foldKey k ≠ "balance".data) (h : UserResp.store r k v = some r') :
    r'.Balance = r.Balance := by
  unfold UserResp.store at h
  simp only [hk, if_false] at h
  split_ifs at h
  · rcases Option.map_eq_some'.1 h with ⟨x, _, rfl⟩
    rfl
  · rcases Option.map_eq_some'.1 h with ⟨x, _, rfl⟩
    rfl
  · rcases Option.map_eq_some'.1 h with ⟨x, _, rfl⟩
    rfl
  · cases h
    rfl

/-- Members under other keys leave the field `Balance` as it is. -/
theorem foldl_other_keys (post : List (String × JVal)) :
    ∀ acc : UserResp × Bool, (∀ kv ∈ post, foldKey kv.1 ≠ "balance".data) →
      (post.foldl (storeMember UserResp.store) acc).1.Balance = acc.1.Balance := by
  induction post with
  | nil => exact fun _ _ => rfl
  | cons kv rest ih =>
    intro acc h
    rw [List.foldl_cons, ih _ (fun x hx => h x (List.mem_cons_of_mem _ hx))]
    unfold storeMember
    split
    · next t' ht => exact store_other_key acc.1 t' kv.1 kv.2 (h kv (List.mem_cons_self _ _)) ht
    · rfl

/-- A number under the key "balance" is stored. -/
theorem store_balance_number (r : UserResp) (k : String) (v : JVal) (b : F64)
    (hk : foldKey k = "balance".data) (hv : assertFloat (some v) = some b) :
    UserResp.store r k v = some { r with Balance := b } := by
  cases v with
  | int n =>
    simp only [assertFloat, Option.some.injEq] at hv
    subst hv
    simp [UserResp.store, hk, storeFloat]
  | dec m e =>
    simp only [assertFloat, Option.some.injEq] at hv
    subst hv
    simp [UserResp.store, hk, storeFloat]
  | _ => simp [assertFloat] at hv

/-- A value under the key "balance" that is neither a number nor `null` is a
type error. -/
theorem store_balance_bad (r : UserResp) (k : String) (v : JVal)
    (hk : foldKey k = "balance".data) (hnn : v ≠ .null) (hv : assertFloat (some v) = none) :
    UserResp.store r k v = none := by
  cases v with
  | null => exact absurd rfl hnn
  | int n => simp [assertFloat] at hv
  | dec m e => simp [assertFloat] at hv
  | _ => simp [UserResp.store, hk, storeFloat]

/-- A `null` under the key "balance" changes nothing. -/
theorem store_balance_null (r : UserResp) (k : String) (hk : foldKey k = "balance".data) :
    UserResp.store r k .null = some r := by
  simp [UserResp.store, hk, storeFloat]

/-- The method `Balance` on a client with a connection whose peer answers the
"user" message with a line. -/
theorem Balance_connected (net : Net) (w : World) (conn : Conn) (doc : JDoc)
    (hconn : w.client.Connection = some conn)
    (hpeer : net.peer conn.addr (conn.sent ++ [userMsg]) = .line doc) :
    (SocketClient.Balance net w).1 =
      if (decodeUserResp doc {}).2 then .error .json
      else .ok (decodeUserResp doc {}).1.Balance := by
  unfold SocketClient.Balance Call CallWith connect exchange
  simp only [userMsg, setKey] at hpeer ⊢
  simp only [hconn]
  by_cases hb : (decodeUserResp doc {}).2 = true <;> simp [hpeer, hb]

/-- The method `HTTPClient.Balance` on an answer that passes the status
switch and whose body is a JSON object. -/
theorem Balance_http (t : HTTPTransport) (c : HTTPClient) (resp : Response)
    (kvs : List (String × JVal))
    (hreq : t.newRequestOk "GET" (c.Config.URL ++ "/" ++ "user") = true)
    (hrt : t.roundTrip (userRequest c) = some resp)
    (hst : resp.StatusCode ≠ 403 ∧ resp.StatusCode ≠ 400 ∧ resp.StatusCode ≠ 413 ∧
      resp.StatusCode ≠ 503)
    (hbody : resp.body = .members kvs) :
    (HTTPClient.Balance t c).1 =
      match assertFloat (lookupKey kvs "balance") with
      | some b => .ok b
      | none => .error (.msg "Balance is not a float") := by
  unfold HTTPClient.Balance HTTPClient.Call
  simp only [trimSlashes_user, userRequest] at hrt ⊢
  simp only [hreq, if_true, hrt, hst.1, hst.2.1, hst.2.2.1, hst.2.2.2, if_false, hbody]
  cases assertFloat (lookupKey kvs "balance") <;> rfl

/-- The method `Balance` on a client without a connection, when the dial and
the implicit login succeed: what it does on the connection just opened. -/
theorem Balance_fresh (net : Net) (w : World) (hconn : w.client.Connection = none)
    (hd : net.dial (dialAddr net w) = true) (hl : loginOutcome net w = .ok ()) :
    SocketClient.Balance net w = SocketClient.Balance net (loggedIn net w) := by
  unfold SocketClient.Balance
  rw [Call_fresh net "user" [] decodeUserResp {} w hconn (by decide)]
  simp only [hd, if_true, hl]

/-- The two `Balance` methods on an answer that is a JSON object. For
`HTTPClient.Balance`, when the request succeeds and the status code is none
of 403, 400, 413 and 503: the number under "balance", and the error "Balance
is not a float" when that member is absent or not a number. For
`SocketClient.Balance` on a client with a connection, `v` being the value of
the last member under the key "balance" (compared without case): the decoded
`Balance` field when the object decodes into `UserResp` without a type
error, an error otherwise; the decoded field is `b` when `v` is a number `b`;
the decoding fails when `v` is a string, a boolean, an array or an object;
and `null` leaves the field as the members before it have set it. -/
theorem Balance_members (t : HTTPTransport) (c : HTTPClient) (resp : Response)
    (kvs : List (String × JVal)) (net : Net) (w : World) (conn : Conn)
    (pre post : List (String × JVal)) (k : String) (v : JVal)
    (hreq : t.newRequestOk "GET" (c.Config.URL ++ "/" ++ "user") = true)
    (hrt : t.roundTrip (userRequest c) = some resp)
    (hst : resp.StatusCode ≠ 403 ∧ resp.StatusCode ≠ 400 ∧ resp.StatusCode ≠ 413 ∧
      resp.StatusCode ≠ 503)
    (hbody : resp.body = .members kvs)
    (hconn : w.client.Connection = some conn)
    (hpeer : net.peer conn.addr (conn.sent ++ [userMsg]) =
      .line (.members (pre ++ (k, v) :: post)))
    (hk : foldKey k = "balance".data)
    (hpost : ∀ kv ∈ post, foldKey kv.1 ≠ "balance".data) :
    (HTTPClient.Balance t c).1 =
      (match assertFloat (lookupKey kvs "balance") with
      | some b => .ok b
      | none => .error (.msg "Balance is not a float")) ∧
    (SocketClient.Balance net w).1 =
      (if (decodeUserResp (.members (pre ++ (k, v) :: post)) {}).2 then .error .json
       else .ok (decodeUserResp (.members (pre ++ (k, v) :: post)) {}).1.Balance) ∧
    (∀ b, assertFloat (some v) = some b →
      (decodeUserResp (.members (pre ++ (k, v) :: post)) {}).1.Balance = b) ∧
    (v ≠ .null → assertFloat (some v) = none →
      (SocketClient.Balance net w).1 = .error .json) ∧
    (v = .null →
      (decodeUserResp (.members (pre ++ (k, v) :: post)) {}).1.Balance =
        (decodeUserResp (.members pre) {}).1.Balance) := by
  have hsock := Balance_connected net w conn _ hconn hpeer
  have hd : ∀ t0 : UserResp, decodeUserResp (.members (pre ++ (k, v) :: post)) t0 =
      post.foldl (storeMember UserResp.store)
        (storeMember UserResp.store (pre.foldl (storeMember UserResp.store) (t0, false))
          (k, v)) := by
    intro t0
    simp only [decodeUserResp, decodeStruct, List.foldl_append, List.foldl_cons]
  refine ⟨Balance_http t c resp kvs hreq hrt hst hbody, hsock, ?_, ?_, ?_⟩
  · intro b hb
    rw [hd, foldl_other_keys post _ hpost]
    unfold storeMember
    simp only [store_balance_number _ k v b hk hb]
  · intro hnn hv
    rw [hsock]
    have hflag : (decodeUserResp (.members (pre ++ (k, v) :: post)) {}).2 = true := by
      rw [hd]
      apply storeMember_flag
      unfold storeMember
      simp only [store_balance_bad _ k v hk hnn hv]
    simp only [hflag, if_true]
  · intro hnull
    subst hnull
    rw [hd, foldl_other_keys post _ hpost]
    unfold storeMember
    simp only [store_balance_null _ k hk]
    rfl

/-- C8, the code at a failing input. On the answers of the two test files both
methods return the number verbatim (5341.051 on a new socket client, the path
of `TestSocketBalance`, and on a connected one; 2645.25 over HTTP), and with a
string under "balance" both return an error. With `null` under "balance"
`HTTPClient.Balance` returns the error "Balance is not a float", but
`SocketClient.Balance`, on a new client and on a connected one, returns 0 and
no error. -/
theorem C8_null_balance_no_error :
    (SocketClient.Balance testNet testWorld).1 = .ok (.lit 5341051 (-3)) ∧
    (SocketClient.Balance testNet connectedWorld).1 = .ok (.lit 5341051 (-3)) ∧
    (HTTPClient.Balance (httpServer 200 HTTP_USER_BODY)
      (NewHTTPClient Username Password HTTPConf)).1 = .ok (.lit 264525 (-2)) ∧
    (SocketClient.Balance (userNet STRING_BALANCE_RESP) testWorld).1 = .error .json ∧
    (HTTPClient.Balance (httpServer 200 HTTP_STRING_BODY)
      (NewHTTPClient Username Password HTTPConf)).1 =
      .error (.msg "Balance is not a float") ∧
    (HTTPClient.Balance (httpServer 200 HTTP_NULL_BODY)
      (NewHTTPClient Username Password HTTPConf)).1 =
      .error (.msg "Balance is not a float") ∧
    (SocketClient.Balance (userNet NULL_BALANCE_RESP) testWorld).1 = .ok (.lit 0 0) ∧
    (SocketClient.Balance (userNet NULL_BALANCE_RESP) connectedWorld).1 = .ok (.lit 0 0) ∧
    (SocketClient.Balance (userNet NULL_BALANCE_RESP) testWorld).2.sent =
      [[("username", .str "tpanum"), ("password", .str "godforgivemypasswordsins"),
        ("cmd", .str "login"), ("version", .str "go-dbc/1.0.0")],
       [("cmd", .str "user"), ("version", .str "go-dbc/1.0.0")]] := by
  decide

end DBC
